import Mathlib

/-!
Shallow embedding of the endf-python ENDF-6 parser (package `endf`) and
verification of a set of claims about it.

Modelling conventions:
* ENDF floating-point fields are decimal literals; they are decoded exactly
  into `Dec`, a decimal fixed-point type (value `m / 10^k`) whose operations
  are plain `Int`/`Nat` arithmetic.  The source's IEEE doubles are treated
  as exact numbers throughout; `Dec.toQ`/`Dec.toR` inject the decoded
  values into `ℚ`/`ℝ`.
* A text stream is a list of lines (`Lines`); `readline` at end of input
  returns the empty string, as a Python file object does.
* Fallible code is modelled with `Except String`; a Python exception
  corresponds to `Except.error`.
* Python list indexing is modelled with total `getD`-style lookups.  The
  source raises `IndexError` for an out-of-range index; no theorem below
  depends on out-of-range indexing.
* Real-valued interpolation (laws 3-5 use log/exp) is modelled over `ℝ`.
-/

namespace ENDF

/-- Decimal fixed-point number: the value `m / 10 ^ k`.  Exactly represents
every ENDF floating-point field as well as every float the parser computes
with (the arithmetic in `get_intg_record` stays decimal). -/
structure Dec where
  m : ℤ
  k : ℕ
deriving DecidableEq, Repr, Inhabited

/-- The rational value of a decimal fixed-point number. -/
def Dec.toQ (d : Dec) : ℚ := (d.m : ℚ) / 10 ^ d.k

/-- The real value of a decimal fixed-point number. -/
noncomputable def Dec.toR (d : Dec) : ℝ := (d.m : ℝ) / 10 ^ d.k

/-- Python `int()` applied to a float: truncation toward zero. -/
def Dec.toInt (d : Dec) : ℤ := d.m.tdiv (10 ^ d.k)

/-- Zero as a decimal. -/
def Dec.zero : Dec := ⟨0, 0⟩

/-- One as a decimal. -/
def Dec.one : Dec := ⟨1, 0⟩

/-- Addition of decimals (used by the matrix symmetrization in
`get_intg_record`). -/
def Dec.add (a b : Dec) : Dec :=
  ⟨a.m * 10 ^ (max a.k b.k - a.k) + b.m * 10 ^ (max a.k b.k - b.k), max a.k b.k⟩

/-- Subtraction of decimals. -/
def Dec.sub (a b : Dec) : Dec :=
  ⟨a.m * 10 ^ (max a.k b.k - a.k) - b.m * 10 ^ (max a.k b.k - b.k), max a.k b.k⟩

/-- `0 < d` on decimals. -/
def Dec.isPos (d : Dec) : Bool := 0 < d.m

/-- `d = 0` on decimals (a decimal is zero iff its mantissa is). -/
def Dec.isZero (d : Dec) : Bool := d.m = 0

/-- Python-style string slice `s[a:b]` (clamping, character based). -/
def pySlice (s : String) (a b : Nat) : String :=
  ((s.toList.drop a).take (b - a)).asString

/-- Python-style string slice `s[a:]`. -/
def pyDrop (s : String) (a : Nat) : String :=
  (s.toList.drop a).asString

/-- Numeric value of a list of decimal digit characters. -/
def digitsToNat (l : List Char) : Nat :=
  l.foldl (fun a c => 10 * a + (c.toNat - 48)) 0

/-- Parse an optionally signed, nonempty run of digits making up the whole
list (the body of Python `int` after whitespace stripping). -/
def parseSignedDigits : List Char → Option ℤ
  | [] => Option.none
  | '+' :: rest =>
      if rest ≠ [] ∧ rest.all Char.isDigit then Option.some (digitsToNat rest)
      else Option.none
  | '-' :: rest =>
      if rest ≠ [] ∧ rest.all Char.isDigit then Option.some (-(digitsToNat rest : ℤ))
      else Option.none
  | l =>
      if l.all Char.isDigit then Option.some (digitsToNat l) else Option.none

/-- Python `int(s)`: surrounding whitespace is ignored, the rest must be an
optionally signed decimal integer. -/
def pyInt (s : String) : Except String ℤ :=
  let t := ((s.toList.dropWhile (· = ' ')).reverse.dropWhile (· = ' ')).reverse
  match parseSignedDigits t with
  | Option.some n => .ok n
  | Option.none => .error ("invalid literal for int: " ++ s)

/-- `int_endf` from `endf/records.py`: an all-blank (and nonempty) field is
zero, otherwise ordinary `int` parsing. -/
def int_endf (s : String) : Except String ℤ :=
  if s.length ≠ 0 ∧ s.toList.all (· = ' ') then .ok 0 else pyInt s

/-- Exponent part of an ENDF float after the mantissa: nothing, an
`e`/`E`/`d`/`D` marker followed by an optionally signed integer, or the
e-less form, a bare sign directly followed by digits. -/
def parseExpPart : List Char → Option ℤ
  | [] => Option.some 0
  | c :: rest =>
      if c = 'e' ∨ c = 'E' ∨ c = 'd' ∨ c = 'D' then parseSignedDigits rest
      else if c = '+' then
        (if rest ≠ [] ∧ rest.all Char.isDigit then Option.some (digitsToNat rest)
         else Option.none)
      else if c = '-' then
        (if rest ≠ [] ∧ rest.all Char.isDigit then Option.some (-(digitsToNat rest : ℤ))
         else Option.none)
      else Option.none

/-- Shift a decimal by a signed power of ten (apply the exponent). -/
def Dec.shift10 (d : Dec) (e : ℤ) : Dec :=
  if 0 ≤ e then ⟨d.m * 10 ^ e.toNat, d.k⟩ else ⟨d.m, d.k + (-e).toNat⟩

/-- Modelled from the spec: `float_endf` is provided by the compiled
extension `endfpy/_records.cpp`, whose source is not part of the Python
tree; only its callers (`endf/records.py`, which also keeps the partial
pure-Python reference `py_float_endf`) and its tests are.  Following
section 4.1 of the spec: optional leading sign, mantissa with optional
decimal point, whitespace allowed anywhere (stripped), an exponent
introduced by `e`/`E`/`d`/`D` or by a bare sign directly appended to the
mantissa; an all-blank field decodes to 0.0; anything else is an error. -/
def float_endf (s : String) : Except String Dec :=
  let t := s.toList.filter (· ≠ ' ')
  match t with
  | [] => .ok Dec.zero
  | _ =>
    let (sgn, u) : ℤ × List Char :=
      match t with
      | '+' :: rest => (1, rest)
      | '-' :: rest => (-1, rest)
      | _ => (1, t)
    let intPart := u.takeWhile Char.isDigit
    let afterInt := u.dropWhile Char.isDigit
    let (fracPart, afterFrac) : List Char × List Char :=
      match afterInt with
      | '.' :: rest => (rest.takeWhile Char.isDigit, rest.dropWhile Char.isDigit)
      | _ => ([], afterInt)
    if intPart = [] ∧ fracPart = [] then
      .error ("could not convert string to float: " ++ s)
    else
      match parseExpPart afterFrac with
      | Option.some e =>
          let mant : Dec :=
            ⟨sgn * (digitsToNat intPart * 10 ^ fracPart.length + digitsToNat fracPart),
             fracPart.length⟩
          .ok (mant.shift10 e)
      | Option.none => .error ("could not convert string to float: " ++ s)

/-- Decidability of equality on `Except`, used to settle concrete parses. -/
instance {ε α : Type} [DecidableEq ε] [DecidableEq α] : DecidableEq (Except ε α)
  | .error a, .error b =>
      if h : a = b then isTrue (by rw [h]) else isFalse (by simp [h])
  | .error _, .ok _ => isFalse (by simp)
  | .ok _, .error _ => isFalse (by simp)
  | .ok a, .ok b =>
      if h : a = b then isTrue (by rw [h]) else isFalse (by simp [h])

/-! ### Record readers (`endf/records.py`)

A file object is a list of the lines that remain to be read. -/

/-- The unread part of an ENDF file. -/
abbrev Lines := List String

/-- Python `readline`: the next line, or the empty string at end of file. -/
def readline : Lines → String × Lines
  | [] => ("", [])
  | l :: ls => (l, ls)

/-- `get_text_record`: the first 66 columns of one line. -/
def get_text_record (ls : Lines) : String × Lines :=
  let (line, rest) := readline ls
  (pySlice line 0 66, rest)

/-- The six fields of a CONT record: two floats and four integers. -/
abbrev Cont6 := Dec × Dec × ℤ × ℤ × ℤ × ℤ

/-- `get_cont_record` (with `skip_c=False`): two floats and four integers
from the six 11-column fields of one line. -/
def get_cont_record (ls : Lines) : Except String (Cont6 × Lines) := do
  let (line, rest) := readline ls
  let C1 ← float_endf (pySlice line 0 11)
  let C2 ← float_endf (pySlice line 11 22)
  let L1 ← int_endf (pySlice line 22 33)
  let L2 ← int_endf (pySlice line 33 44)
  let N1 ← int_endf (pySlice line 44 55)
  let N2 ← int_endf (pySlice line 55 66)
  .ok ((C1, C2, L1, L2, N1, N2), rest)

/-- `get_cont_record` with `skip_c=True`: the four integers only (C1 and C2
are returned as Python `None` and dropped by every caller). -/
def get_cont_record_skip (ls : Lines) : Except String ((ℤ × ℤ × ℤ × ℤ) × Lines) := do
  let (line, rest) := readline ls
  let L1 ← int_endf (pySlice line 22 33)
  let L2 ← int_endf (pySlice line 33 44)
  let N1 ← int_endf (pySlice line 44 55)
  let N2 ← int_endf (pySlice line 55 66)
  .ok ((L1, L2, N1, N2), rest)

/-- `get_head_record`: like CONT, but the first field is coerced to an
integer (`int(float_endf(...))`). -/
def get_head_record (ls : Lines) : Except String ((ℤ × Dec × ℤ × ℤ × ℤ × ℤ) × Lines) := do
  let (line, rest) := readline ls
  let ZAf ← float_endf (pySlice line 0 11)
  let AWR ← float_endf (pySlice line 11 22)
  let L1 ← int_endf (pySlice line 22 33)
  let L2 ← int_endf (pySlice line 33 44)
  let N1 ← int_endf (pySlice line 44 55)
  let N2 ← int_endf (pySlice line 55 66)
  .ok ((ZAf.toInt, AWR, L1, L2, N1, N2), rest)

/-- Read `n` floats from consecutive 11-column fields of one line. -/
def readFloatFields (line : String) (n : Nat) : Except String (List Dec) :=
  (List.range n).mapM (fun j => float_endf (pySlice line (11 * j) (11 * (j + 1))))

/-- The value-reading loop of `get_list_record`: `lines` line reads with up
to six values per line, `rem` values remaining. -/
def getListValsAux : Nat → Nat → Lines → Except String (List Dec × Lines)
  | 0, _, ls => .ok ([], ls)
  | i + 1, rem, ls => do
      let (line, rest) := readline ls
      let n := min 6 rem
      let vals ← readFloatFields line n
      let (more, rest2) ← getListValsAux i (rem - n) rest
      .ok (vals ++ more, rest2)

/-- Number of lines Python's `range((n - 1)//6 + 1)` iterates over
(floor division on possibly negative `n`). -/
def pyLineCount (n : ℤ) (per : ℤ) : Nat := ((n - 1).fdiv per + 1).toNat

/-- `get_list_record`: a CONT header whose fifth field NPL counts the
floats that follow, six per line. -/
def get_list_record (ls : Lines) : Except String ((Cont6 × List Dec) × Lines) := do
  let (items, rest) ← get_cont_record ls
  let NPL := items.2.2.2.2.1
  let (b, rest2) ← getListValsAux (pyLineCount NPL 6) NPL.toNat rest
  .ok ((items, b), rest2)

/-! ### Tabulated1D (`endf/function.py`) -/

/-- The state of `Tabulated1D`: tabulated (x, y) pairs plus parallel
breakpoint/interpolation-law arrays. -/
structure Tabulated1D where
  x : List Dec
  y : List Dec
  breakpoints : List ℤ
  interpolation : List ℤ
deriving DecidableEq, Repr

/-- `Tabulated1D.__init__`: explicit breakpoint/interpolation arrays are
stored as given; if either is omitted (`None`), a single linear-linear
region spanning all points is used. -/
def tab1dInit (x y : List Dec) (bp ip : Option (List ℤ)) : Tabulated1D :=
  match bp, ip with
  | Option.some b, Option.some p => ⟨x, y, b, p⟩
  | _, _ => ⟨x, y, [(x.length : ℤ)], [2]⟩

/-- One line of the breakpoint/interpolation table of a TAB1 record: up to
three (breakpoint, law) pairs, the line being cut down by 22 columns after
each pair as in the source. -/
def readBPFields : Nat → String → Except String (List (ℤ × ℤ))
  | 0, _ => .ok []
  | j + 1, line => do
      let b ← int_endf (pySlice line 0 11)
      let i ← int_endf (pySlice line 11 22)
      let more ← readBPFields j (pyDrop line 22)
      .ok ((b, i) :: more)

/-- The region-reading loop of `get_tab1_record`. -/
def readBPLoop : Nat → Nat → Lines → Except String (List (ℤ × ℤ) × Lines)
  | 0, _, ls => .ok ([], ls)
  | i + 1, rem, ls => do
      let (line, rest) := readline ls
      let n := min 3 rem
      let vals ← readBPFields n line
      let (more, rest2) ← readBPLoop i (rem - n) rest
      .ok (vals ++ more, rest2)

/-- One line of the (x, y) table of a TAB1 record: up to three pairs. -/
def readXYFields : Nat → String → Except String (List (Dec × Dec))
  | 0, _ => .ok []
  | j + 1, line => do
      let xv ← float_endf (pySlice line 0 11)
      let yv ← float_endf (pySlice line 11 22)
      let more ← readXYFields j (pyDrop line 22)
      .ok ((xv, yv) :: more)

/-- The pair-reading loop of `get_tab1_record`. -/
def readXYLoop : Nat → Nat → Lines → Except String (List (Dec × Dec) × Lines)
  | 0, _, ls => .ok ([], ls)
  | i + 1, rem, ls => do
      let (line, rest) := readline ls
      let n := min 3 rem
      let vals ← readXYFields n line
      let (more, rest2) ← readXYLoop i (rem - n) rest
      .ok (vals ++ more, rest2)

/-- `get_tab1_record`: header (C1, C2, L1, L2, NR, NP), then the NR
(breakpoint, law) pairs, then the NP (x, y) pairs, assembled into a
`Tabulated1D` (the decoded arrays are passed to the constructor as-is). -/
def get_tab1_record (ls : Lines) :
    Except String (((Dec × Dec × ℤ × ℤ) × Tabulated1D) × Lines) := do
  let (line, rest) := readline ls
  let C1 ← float_endf (pySlice line 0 11)
  let C2 ← float_endf (pySlice line 11 22)
  let L1 ← int_endf (pySlice line 22 33)
  let L2 ← int_endf (pySlice line 33 44)
  let nR ← int_endf (pySlice line 44 55)
  let nP ← int_endf (pySlice line 55 66)
  let (bps, rest2) ← readBPLoop (pyLineCount nR 3) nR.toNat rest
  let (xys, rest3) ← readXYLoop (pyLineCount nP 3) nP.toNat rest2
  .ok (((C1, C2, L1, L2),
        tab1dInit (xys.map Prod.fst) (xys.map Prod.snd)
          (Option.some (bps.map Prod.fst)) (Option.some (bps.map Prod.snd))), rest3)

/-- One line of the region table of a TAB2 record (note the source uses
plain `int`, not `int_endf`, here). -/
def readBP2Fields : Nat → String → Except String (List (ℤ × ℤ))
  | 0, _ => .ok []
  | j + 1, line => do
      let b ← pyInt (pySlice line 0 11)
      let i ← pyInt (pySlice line 11 22)
      let more ← readBP2Fields j (pyDrop line 22)
      .ok ((b, i) :: more)

/-- The region-reading loop of `get_tab2_record`. -/
def readBP2Loop : Nat → Nat → Lines → Except String (List (ℤ × ℤ) × Lines)
  | 0, _, ls => .ok ([], ls)
  | i + 1, rem, ls => do
      let (line, rest) := readline ls
      let n := min 3 rem
      let vals ← readBP2Fields n line
      let (more, rest2) ← readBP2Loop i (rem - n) rest
      .ok (vals ++ more, rest2)

/-- `get_tab2_record`: a CONT header whose fifth field counts the
interpolation regions that follow; returns the header and the region
metadata (`Tabulated2D` holds just the two arrays). -/
def get_tab2_record (ls : Lines) :
    Except String ((Cont6 × (List ℤ × List ℤ)) × Lines) := do
  let (items, rest) ← get_cont_record ls
  let nR := items.2.2.2.2.1
  let (bps, rest2) ← readBP2Loop (pyLineCount nR 3) nR.toNat rest
  .ok ((items, (bps.map Prod.fst, bps.map Prod.snd)), rest2)

/-! ### INTG records -/

/-- A correlation matrix, by rows. -/
abbrev Mat := List (List Dec)

/-- `np.identity(n)` as a decimal matrix. -/
def identityMat (n : ℕ) : Mat :=
  (List.range n).map (fun i => (List.range n).map (fun j =>
    if i = j then Dec.one else Dec.zero))

/-- Write one entry of a matrix.  Python would wrap a negative index and
raise on an out-of-range one; the claims only exercise in-range indices. -/
def setEntry (M : Mat) (i j : ℤ) (v : Dec) : Mat :=
  M.mapIdx (fun a row => row.mapIdx (fun b w =>
    if (a : ℤ) = i ∧ (b : ℤ) = j then v else w))

/-- The packed value `(element + 0.5)/10^ndigit` (for positive entries) or
`(element - 0.5)/10^ndigit` (for negative ones), exactly in decimal. -/
def intgValue (element : ℤ) (ndigit : ℕ) : Dec :=
  if 0 < element then ⟨10 * element + 5, ndigit + 1⟩ else ⟨10 * element - 5, ndigit + 1⟩

/-- The inner loop of `get_intg_record` over the up-to-`nrow` packed
entries of one INTG line; `j` is the current entry index.  As in the
source, every nonzero entry is stored at column `jj` (the entry index `j`
is used only in the break condition and in the column slices). -/
def intgLineLoop (line : String) (ndigit : ℕ) (ii jj : ℤ) :
    Nat → Nat → Mat → Except String Mat
  | _, 0, M => .ok M
  | j, rem + 1, M =>
      if jj + j ≥ ii then .ok M
      else do
        let element ← int_endf (pySlice line (11 + (ndigit + 1) * j) (11 + (ndigit + 1) * (j + 1)))
        let M2 :=
          if 0 < element then setEntry M ii jj (intgValue element ndigit)
          else if element < 0 then setEntry M ii jj (intgValue element ndigit)
          else M
        intgLineLoop line ndigit ii jj (j + 1) rem M2

/-- The line loop of `get_intg_record`. -/
def intgLines (ndigit : ℕ) (nrow : ℕ) : Nat → Mat → Lines → Except String (Mat × Lines)
  | 0, M, ls => .ok (M, ls)
  | n + 1, M, ls => do
      let (line, rest) := readline ls
      let iiRaw ← int_endf (pySlice line 0 5)
      let jjRaw ← int_endf (pySlice line 5 10)
      let M2 ← intgLineLoop line ndigit (iiRaw - 1) (jjRaw - 1) 0 nrow M
      intgLines ndigit nrow n M2 rest

/-- `corr + corr.T - np.diag(corr.diagonal())`, entrywise. -/
def symmetrize (M : Mat) : Mat :=
  M.mapIdx (fun i row => row.mapIdx (fun j v =>
    let vT := (M.getD j []).getD i Dec.zero
    (v.add vT).sub (if i = j then v else Dec.zero)))

/-- `get_intg_record`: CONT header giving (NDIGIT, NPAR, NLINES); NDIGIT
selects the row width from `{2: 18, 3: 12, 4: 11, 5: 9, 6: 8}`; each of the
NLINES lines gives two 5-column indices and packed entries of width
NDIGIT+1; the matrix is then symmetrized. -/
def get_intg_record (ls : Lines) : Except String (Mat × Lines) := do
  let (items, rest) ← get_cont_record ls
  let ndigit := items.2.2.1
  let npar := items.2.2.2.1
  let nlines := items.2.2.2.2.1
  let nrow ←
    if ndigit = 2 then .ok 18
    else if ndigit = 3 then .ok 12
    else if ndigit = 4 then .ok 11
    else if ndigit = 5 then .ok 9
    else if ndigit = 6 then .ok 8
    else .error "KeyError: NROW_RULES"
  let (M, rest2) ← intgLines ndigit.toNat nrow nlines.toNat (identityMat npar.toNat) rest
  .ok (symmetrize M, rest2)

/-- Follows the claim's words (C3), for comparison with `intgLineLoop`:
entry `j` of an INTG line is stored at the successive below-diagonal
position, column `jj + j`. -/
def intgLineLoopClaim (line : String) (ndigit : ℕ) (ii jj : ℤ) :
    Nat → Nat → Mat → Except String Mat
  | _, 0, M => .ok M
  | j, rem + 1, M =>
      if jj + j ≥ ii then .ok M
      else do
        let element ← int_endf (pySlice line (11 + (ndigit + 1) * j) (11 + (ndigit + 1) * (j + 1)))
        let M2 :=
          if element ≠ 0 then setEntry M ii (jj + j) (intgValue element ndigit)
          else M
        intgLineLoopClaim line ndigit ii jj (j + 1) rem M2

/-- The line loop of `read_intg_claim`. -/
def intgLinesClaim (ndigit : ℕ) (nrow : ℕ) : Nat → Mat → Lines → Except String (Mat × Lines)
  | 0, M, ls => .ok (M, ls)
  | n + 1, M, ls => do
      let (line, rest) := readline ls
      let iiRaw ← int_endf (pySlice line 0 5)
      let jjRaw ← int_endf (pySlice line 5 10)
      let M2 ← intgLineLoopClaim line ndigit (iiRaw - 1) (jjRaw - 1) 0 nrow M
      intgLinesClaim ndigit nrow n M2 rest

/-- The INTG reader as the claim (C3) describes it: identical to
`get_intg_record` except that entry `j` goes to column `jj + j`. -/
def read_intg_claim (ls : Lines) : Except String (Mat × Lines) := do
  let (items, rest) ← get_cont_record ls
  let ndigit := items.2.2.1
  let npar := items.2.2.2.1
  let nlines := items.2.2.2.2.1
  let nrow ←
    if ndigit = 2 then .ok 18
    else if ndigit = 3 then .ok 12
    else if ndigit = 4 then .ok 11
    else if ndigit = 5 then .ok 9
    else if ndigit = 6 then .ok 8
    else .error "KeyError: NROW_RULES"
  let (M, rest2) ← intgLinesClaim ndigit.toNat nrow nlines.toNat (identityMat npar.toNat) rest
  .ok (symmetrize M, rest2)

/-! ### Parsed section data

Python's section parsers return heterogeneous dictionaries; `Val` is the
value universe and a parsed section is an ordered association list
(mirroring `dict` insertion order). -/

/-- A parsed value: float, int, string, Python `None`, list, tabulated
function, TAB2 metadata, float matrix, or nested mapping. -/
inductive Val where
  | F (d : Dec)
  | I (n : ℤ)
  | S (s : String)
  | NoneV
  | L (l : List Val)
  | T1 (t : Tabulated1D)
  | T2 (b i : List ℤ)
  | M (m : List (List Dec))
  | D (d : List (String × Val))
deriving Repr

/-- A parsed section mapping (dict with insertion order). -/
abbrev PDict := List (String × Val)

/-- Python dict assignment `d[k] = v`: overwrite in place, else append. -/
def dSet (d : PDict) (k : String) (v : Val) : PDict :=
  if d.any (fun p => p.1 = k) then d.map (fun p => if p.1 = k then (k, v) else p)
  else d ++ [(k, v)]

/-- Python dict lookup. -/
def dGet (d : PDict) (k : String) : Option Val :=
  (d.find? (fun p => p.1 = k)).map Prod.snd

/-- Python `d.update(frag)`. -/
def dUpdate (d frag : PDict) : PDict :=
  frag.foldl (fun acc kv => dSet acc kv.1 kv.2) d

/-- `l[i]` for float lists (the claims only use in-range indices). -/
def at0 (l : List Dec) (i : ℕ) : Dec := l.getD i Dec.zero

/-- `l[a:b]` slicing. -/
def listSlice (l : List α) (a b : ℕ) : List α := (l.drop a).take (b - a)

/-- Every `step`-th element of a list, starting at its head (`step ≥ 1`;
the strides the source uses are positive constants or counts). -/
def takeEvery (step : ℕ) (l : List α) : List α :=
  (List.range l.length).filterMap (fun i => if i % step = 0 then l.get? i else Option.none)

/-- Python extended slice `l[a::step]`. -/
def stride (l : List α) (a step : ℕ) : List α := takeEvery step (l.drop a)

/-- A list of floats as a value (`numpy` arrays of decoded floats). -/
def VFl (l : List Dec) : Val := .L (l.map Val.F)

/-- A strided float slice as a value. -/
def VStr (l : List Dec) (a step : ℕ) : Val := VFl (stride l a step)

/-- A 2-tuple of floats as a value. -/
def VPair (a b : Dec) : Val := .L [.F a, .F b]

/-- `for _ in range(n)` accumulating one value per iteration. -/
def loopM (f : Lines → Except String (α × Lines)) :
    Nat → Lines → Except String (List α × Lines)
  | 0, ls => .ok ([], ls)
  | n + 1, ls => do
      let (v, ls1) ← f ls
      let (vs, ls2) ← loopM f n ls1
      .ok (v :: vs, ls2)

/-- `for i in range(n)` with the loop index. -/
def loopIdxM (f : Nat → Lines → Except String (α × Lines)) :
    Nat → Nat → Lines → Except String (List α × Lines)
  | _, 0, ls => .ok ([], ls)
  | i, n + 1, ls => do
      let (v, ls1) ← f i ls
      let (vs, ls2) ← loopIdxM f (i + 1) n ls1
      .ok (v :: vs, ls2)

/-! ### Section parsers, MF=3/9/10/12/13/15/23/27/28 -/

/-- `parse_mf3`: HEAD record then one TAB1 cross section. -/
def parse_mf3 (ls : Lines) : Except String (Val × Lines) := do
  let ((ZA, AWR, _, _, _, _), ls1) ← get_head_record ls
  let ((params, xs), ls2) ← get_tab1_record ls1
  .ok (.D [("ZA", .I ZA), ("AWR", .F AWR), ("QM", .F params.1),
           ("QI", .F params.2.1), ("LR", .I params.2.2.2), ("sigma", .T1 xs)], ls2)

/-- `parse_mf9_mf10`: HEAD record, then one TAB1 per level; the function is
stored under `Y` for MF=9 and `sigma` for MF=10. -/
def parse_mf9_mf10 (MF : ℤ) (ls : Lines) : Except String (Val × Lines) := do
  let ((ZA, AWR, LIS, _, NS, _), ls1) ← get_head_record ls
  let (levels, ls2) ← loopM (fun ls => do
      let ((params, func), ls1) ← get_tab1_record ls
      let base := [("QM", Val.F params.1), ("QI", Val.F params.2.1),
                   ("IZAP", Val.I params.2.2.1), ("LFS", Val.I params.2.2.2)]
      .ok (Val.D (base ++ [(if MF = 9 then "Y" else "sigma", Val.T1 func)]), ls1))
    NS.toNat ls1
  .ok (.D [("ZA", .I ZA), ("AWR", .F AWR), ("LIS", .I LIS), ("NS", .I NS),
           ("levels", .L levels)], ls2)

/-- `parse_mf12`: photon production multiplicities (LO=1) or transition
probabilities (LO=2); an unrecognized LO warns and returns the header
data (the warning channel is not modelled). -/
def parse_mf12 (ls : Lines) : Except String (Val × Lines) := do
  let ((ZA, AWR, LO, LG, NK, _), ls1) ← get_head_record ls
  let base : PDict := [("ZA", .I ZA), ("AWR", .F AWR), ("LO", .I LO), ("NK", .I NK)]
  if LO = 1 then do
    let (yTot, ls2) ←
      if 1 < NK then do
        let ((_, y), ls2) ← get_tab1_record ls1
        .ok ([("Y", Val.T1 y)], ls2)
      else .ok (([] : PDict), ls1)
    let (mult, ls3) ← loopM (fun ls => do
        let ((params, y), ls1) ← get_tab1_record ls
        .ok (Val.D [("Eg", .F params.1), ("ES", .F params.2.1), ("LP", .I params.2.2.1),
                    ("LF", .I params.2.2.2), ("y", .T1 y)], ls1))
      NK.toNat ls2
    .ok (.D (base ++ yTot ++ [("multiplicities", .L mult)]), ls3)
  else if LO = 2 then do
    let ((items, values), ls2) ← get_list_record ls1
    let NT := items.2.2.2.2.2
    let transitions :=
      (List.range NT.toNat).filterMap (fun i =>
        if LG = 1 then
          Option.some (Val.D [("ES", .F (at0 values (2 * i))), ("TP", .F (at0 values (2 * i + 1)))])
        else if LG = 2 then
          Option.some (Val.D [("ES", .F (at0 values (3 * i))), ("TP", .F (at0 values (3 * i + 1))),
                              ("GP", .F (at0 values (3 * i + 2)))])
        else Option.none)
    .ok (.D (base ++ [("LG", .I LG), ("ES_NS", .F items.1), ("LP", .I items.2.2.1),
                      ("NT", .I NT), ("transitions", .L transitions)]), ls2)
  else
    -- source: warn(f"Unrecognized LO value") and return the header data
    .ok (.D base, ls1)

/-- `parse_mf13`: photon production cross sections. -/
def parse_mf13 (ls : Lines) : Except String (Val × Lines) := do
  let ((ZA, AWR, _, _, NK, _), ls1) ← get_head_record ls
  let (sigTot, ls2) ←
    if 1 < NK then do
      let ((_, s), ls2) ← get_tab1_record ls1
      .ok ([("sigma_total", Val.T1 s)], ls2)
    else .ok (([] : PDict), ls1)
  let (photons, ls3) ← loopM (fun ls => do
      let ((params, sigma), ls1) ← get_tab1_record ls
      .ok (Val.D [("EG", .F params.1), ("ES", .F params.2.1), ("LP", .I params.2.2.1),
                  ("LF", .I params.2.2.2), ("sigma", .T1 sigma)], ls1))
    NK.toNat ls2
  .ok (.D ([("ZA", .I ZA), ("AWR", .F AWR), ("NK", .I NK)] ++ sigTot ++
           [("photons", .L photons)]), ls3)

/-- `parse_mf15`: continuous photon energy spectra. -/
def parse_mf15 (ls : Lines) : Except String (Val × Lines) := do
  let ((ZA, AWR, _, _, NC, _), ls1) ← get_head_record ls
  let (subs, ls2) ← loopM (fun ls => do
      let ((params, p), ls1) ← get_tab1_record ls
      let ((items2, tab2), ls2) ← get_tab2_record ls1
      let NE := items2.2.2.2.2.2
      let (eg, ls3) ← loopM (fun ls => do
          let ((params1, g), ls1) ← get_tab1_record ls
          .ok ((params1.2.1, g), ls1)) NE.toNat ls2
      .ok (Val.D [("LF", .I params.2.2.2), ("p", .T1 p),
                  ("E_int", .T2 tab2.1 tab2.2), ("NE", .I NE),
                  ("E", VFl (eg.map Prod.fst)), ("g", .L (eg.map (Val.T1 ∘ Prod.snd)))], ls3))
    NC.toNat ls1
  .ok (.D [("ZA", .I ZA), ("AWR", .F AWR), ("NC", .I NC), ("subsections", .L subs)], ls2)

/-- `parse_mf23`: photon interaction cross sections. -/
def parse_mf23 (ls : Lines) : Except String (Val × Lines) := do
  let ((ZA, AWR, _, _, _, _), ls1) ← get_head_record ls
  let ((params, xs), ls2) ← get_tab1_record ls1
  .ok (.D [("ZA", .I ZA), ("AWR", .F AWR), ("EPE", .F params.1),
           ("EFL", .F params.2.1), ("sigma", .T1 xs)], ls2)

/-- `parse_mf27`: atomic form factors. -/
def parse_mf27 (ls : Lines) : Except String (Val × Lines) := do
  let ((ZA, AWR, _, _, _, _), ls1) ← get_head_record ls
  let ((params, H), ls2) ← get_tab1_record ls1
  .ok (.D [("ZA", .I ZA), ("AWR", .F AWR), ("Z", .F params.2.1), ("H", .T1 H)], ls2)

/-- `parse_mf28`: atomic relaxation data, one LIST per subshell. -/
def parse_mf28 (ls : Lines) : Except String (Val × Lines) := do
  let ((ZA, AWR, _, _, NSS, _), ls1) ← get_head_record ls
  let (shells, ls2) ← loopM (fun ls => do
      let ((items, values), ls1) ← get_list_record ls
      .ok (Val.D [("SUBI", .F items.1), ("NTR", .I items.2.2.2.2.2),
                  ("EBI", .F (at0 values 0)), ("ELN", .F (at0 values 1)),
                  ("SUBJ", VStr values 6 6), ("SUBK", VStr values 7 6),
                  ("ETR", VStr values 8 6), ("FTR", VStr values 9 6)], ls1))
    NSS.toNat ls1
  .ok (.D [("ZA", .I ZA), ("AWR", .F AWR), ("NSS", .I NSS), ("shells", .L shells)], ls2)

/-! ### Section parsers, MF=1 -/

/-- The TEXT-record loop of `parse_mf1_mt451`. -/
def textLoop : Nat → Lines → (List String × Lines)
  | 0, ls => ([], ls)
  | n + 1, ls =>
      let (t, ls1) := get_text_record ls
      let (ts, ls2) := textLoop n ls1
      (t :: ts, ls2)

/-- `parse_mf1_mt451`: HEAD, three CONT control records, NWD TEXT records
(the first five carrying fixed-column sub-fields), and NXC directory
records. -/
def parse_mf1_mt451 (ls : Lines) : Except String (Val × Lines) := do
  let ((ZA, AWR, LRP, LFI, NLIB, NMOD), ls1) ← get_head_record ls
  let ((ELIS, STA, LIS, LISO, _, NFOR), ls2) ← get_cont_record ls1
  let ((AWI, EMAX, LREL, _, NSUB, NVER), ls3) ← get_cont_record ls2
  let ((TEMP, _, LDRV, _, NWD, NXC), ls4) ← get_cont_record ls3
  let (text, ls5) := textLoop NWD.toNat ls4
  let base : PDict :=
    [("ZA", .I ZA), ("AWR", .F AWR), ("LRP", .I LRP), ("LFI", .I LFI),
     ("NLIB", .I NLIB), ("NMOD", .I NMOD),
     ("ELIS", .F ELIS), ("STA", .F STA), ("LIS", .I LIS), ("LISO", .I LISO),
     ("NFOR", .I NFOR),
     ("AWI", .F AWI), ("EMAX", .F EMAX), ("LREL", .I LREL), ("NSUB", .I NSUB),
     ("NVER", .I NVER),
     ("TEMP", .F TEMP), ("LDRV", .I LDRV), ("NWD", .I NWD), ("NXC", .I NXC)]
  let tfields : PDict :=
    if 5 ≤ text.length then
      let t0 := text.getD 0 ""
      let t1 := text.getD 1 ""
      [("ZSYMAM", .S (pySlice t0 0 11)), ("ALAB", .S (pySlice t0 11 22)),
       ("EDATE", .S (pySlice t0 22 32)), ("AUTH", .S (pySlice t0 32 66)),
       ("REF", .S (pySlice t1 1 22)), ("DDATE", .S (pySlice t1 22 32)),
       ("RDATE", .S (pySlice t1 33 43)), ("ENDATE", .S (pySlice t1 55 63)),
       ("HSUB", .L ((listSlice text 2 5).map Val.S)),
       ("description", .L ((text.drop 5).map Val.S))]
    else [("ZSYMAM", .NoneV)]
  let (secList, ls6) ← loopM (fun ls => do
      let ((mf, mt, nc, md), ls1) ← get_cont_record_skip ls
      .ok (Val.L [.I mf, .I mt, .I nc, .I md], ls1))
    NXC.toNat ls5
  .ok (.D (base ++ tfields ++ [("section_list", .L secList)]), ls6)

/-- `parse_mf1_mt452`: polynomial (LNU=1) or tabulated (LNU=2) number of
neutrons per fission. -/
def parse_mf1_mt452 (ls : Lines) : Except String (Val × Lines) := do
  let ((ZA, AWR, _, LNU, _, _), ls1) ← get_head_record ls
  let base : PDict := [("ZA", .I ZA), ("AWR", .F AWR), ("LNU", .I LNU)]
  if LNU = 1 then do
    let ((_, C), ls2) ← get_list_record ls1
    .ok (.D (base ++ [("C", VFl C)]), ls2)
  else if LNU = 2 then do
    let ((_, nu), ls2) ← get_tab1_record ls1
    .ok (.D (base ++ [("nu", .T1 nu)]), ls2)
  else .ok (.D base, ls1)

/-- `parse_mf1_mt455`: delayed neutron data; LDG selects energy-dependent
group constants, LNU the nu-bar representation. -/
def parse_mf1_mt455 (ls : Lines) : Except String (Val × Lines) := do
  let ((ZA, AWR, LDG, LNU, _, _), ls1) ← get_head_record ls
  let base : PDict := [("ZA", .I ZA), ("AWR", .F AWR), ("LDG", .I LDG), ("LNU", .I LNU)]
  let (d1, ls2) ←
    if LDG = 0 then do
      let ((_, lam), ls2) ← get_list_record ls1
      .ok ((base ++ [("lambda", VFl lam)]), ls2)
    else if LDG = 1 then do
      let ((params, tab2), ls2) ← get_tab2_record ls1
      let NE := params.2.2.2.2.2
      let (cs, ls3) ← loopM (fun ls => do
          let ((items, values), ls1) ← get_list_record ls
          .ok (Val.D [("E", .F items.2.1), ("lambda", VStr values 0 2),
                      ("alpha", VStr values 1 2)], ls1)) NE.toNat ls2
      .ok ((base ++ [("E_int", .T2 tab2.1 tab2.2), ("constants", .L cs)]), ls3)
    else .ok (base, ls1)
  if LNU = 1 then do
    let ((_, C), ls3) ← get_list_record ls2
    .ok (.D (d1 ++ [("C", VFl C)]), ls3)
  else if LNU = 2 then do
    let ((_, nu), ls3) ← get_tab1_record ls2
    .ok (.D (d1 ++ [("nu", .T1 nu)]), ls3)
  else .ok (.D d1, ls2)

/-- The nine named fission energy release components of MF=1/MT=458. -/
def components458 : List String :=
  ["EFR", "ENP", "END", "EGP", "EGD", "EB", "ENU", "ER", "ET"]

/-- The tabulated-component loop of `parse_mf1_mt458`: each TAB1 record
names (via IFC) which component's entry to replace. -/
def mt458TabLoop : Nat → PDict → Lines → Except String (PDict × Lines)
  | 0, d, ls => .ok (d, ls)
  | n + 1, d, ls => do
      let ((params, EIFC), ls1) ← get_tab1_record ls
      let LDRV := params.2.2.1
      let IFC := params.2.2.2
      let name := components458.getD IFC.toNat ""
      mt458TabLoop n (dSet d name (.D [("LDRV", .I LDRV), ("EIFC", .T1 EIFC)])) ls1

/-- `parse_mf1_mt458`: components of fission energy release, unpacked from
an 18-wide interleave with optional per-component TAB1 overrides. -/
def parse_mf1_mt458 (ls : Lines) : Except String (Val × Lines) := do
  let ((ZA, AWR, _, LFC, _, NFC), ls1) ← get_cont_record ls
  let ((items, values), ls2) ← get_list_record ls1
  let base : PDict :=
    [("ZA", .F ZA), ("AWR", .F AWR), ("LFC", .I LFC),
     ("NPLY", .I items.2.2.2.1)]
  let withComps : PDict :=
    base ++ ((List.range components458.length).map (fun i =>
      let coeffs := stride values (2 * i) 18
      let deltas := stride values (2 * i + 1) 18
      (components458.getD i "", Val.L (List.zipWith VPair coeffs deltas))))
  if LFC = 1 then do
    let (dFin, ls3) ← mt458TabLoop NFC.toNat (withComps ++ [("NFC", .I NFC)]) ls2
    .ok (.D dFin, ls3)
  else .ok (.D withComps, ls2)

/-- `parse_mf1_mt460`: delayed photon data, per-photon TAB1 time
dependences (LO=1) or precursor decay constants (LO=2). -/
def parse_mf1_mt460 (ls : Lines) : Except String (Val × Lines) := do
  let ((ZA, AWR, LO, _, NG, _), ls1) ← get_head_record ls
  let base : PDict := [("ZA", .I ZA), ("AWR", .F AWR), ("LO", .I LO)]
  if LO = 1 then do
    let (et, ls2) ← loopM (fun ls => do
        let ((params, T), ls1) ← get_tab1_record ls
        .ok ((params.1, T), ls1)) NG.toNat ls1
    .ok (.D (base ++ [("NG", .I NG), ("E", VFl (et.map Prod.fst)),
                      ("T", .L (et.map (Val.T1 ∘ Prod.snd)))]), ls2)
  else if LO = 2 then do
    let ((_, lam), ls2) ← get_list_record ls1
    .ok (.D (base ++ [("lambda", VFl lam)]), ls2)
  else .ok (.D base, ls1)

/-! ### Section parser, MF=2 (`endf/mf2.py`) -/

/-- `MLBW.dict_from_endf` (also `SLBW`, which inherits it unchanged):
optional energy-dependent scattering radius, a CONT record, then one LIST
of 6-stride resonance parameters per l value. -/
def MLBW_dict_from_endf (NRO : ℤ) (ls : Lines) : Except String (PDict × Lines) := do
  let (ape, ls1) ←
    if NRO ≠ 0 then do
      let ((_, t), ls1) ← get_tab1_record ls
      .ok ([("APE", Val.T1 t)], ls1)
    else .ok (([] : PDict), ls)
  let ((SPI, AP, _, _, NLS, _), ls2) ← get_cont_record ls1
  let (sections, ls3) ← loopM (fun ls => do
      let ((items, values), ls1) ← get_list_record ls
      .ok (Val.D [("AWRI", .F items.1), ("QX", .F items.2.1), ("L", .I items.2.2.1),
                  ("LRX", .I items.2.2.2.1), ("NRS", .I items.2.2.2.2.2),
                  ("ER", VStr values 0 6), ("AJ", VStr values 1 6),
                  ("GT", VStr values 2 6), ("GN", VStr values 3 6),
                  ("GG", VStr values 4 6), ("GF", VStr values 5 6)], ls1))
    NLS.toNat ls2
  .ok (ape ++ [("SPI", .F SPI), ("AP", .F AP), ("NLS", .I NLS),
               ("sections", .L sections)], ls3)

/-- `ReichMoore.dict_from_endf`. -/
def ReichMoore_dict_from_endf (NRO : ℤ) (ls : Lines) : Except String (PDict × Lines) := do
  let (ape, ls1) ←
    if NRO ≠ 0 then do
      let ((_, t), ls1) ← get_tab1_record ls
      .ok ([("APE", Val.T1 t)], ls1)
    else .ok (([] : PDict), ls)
  let ((SPI, AP, LAD, _, NLS, NLSC), ls2) ← get_cont_record ls1
  let (sections, ls3) ← loopM (fun ls => do
      let ((items, values), ls1) ← get_list_record ls
      .ok (Val.D [("AWRI", .F items.1), ("APL", .F items.2.1), ("L", .I items.2.2.1),
                  ("NRS", .I items.2.2.2.2.2),
                  ("ER", VStr values 0 6), ("AJ", VStr values 1 6),
                  ("GN", VStr values 2 6), ("GG", VStr values 3 6),
                  ("GFA", VStr values 4 6), ("GFB", VStr values 5 6)], ls1))
    NLS.toNat ls2
  .ok (ape ++ [("SPI", .F SPI), ("AP", .F AP), ("LAD", .I LAD), ("NLS", .I NLS),
               ("NLSC", .I NLSC), ("sections", .L sections)], ls3)

/-- `AdlerAdler.dict_from_endf`: unconditionally `raise NotImplementedError`. -/
def AdlerAdler_dict_from_endf (_NRO : ℤ) (_ls : Lines) : Except String (PDict × Lines) :=
  .error "NotImplementedError"

/-- One spin group of `RMatrixLimited.dict_from_endf`. -/
def rmlSpinGroup (ls : Lines) : Except String (Val × Lines) := do
  let ((items, values), ls1) ← get_list_record ls
  let AJ := items.1
  let PJ := items.2.1
  let KBK := items.2.2.1
  let KPS := items.2.2.2.1
  let NCH := items.2.2.2.2.2
  let channels : PDict :=
    [("PPI", VStr values 0 6), ("L", VStr values 1 6), ("SCH", VStr values 2 6),
     ("BND", VStr values 3 6), ("APE", VStr values 4 6), ("APT", VStr values 5 6)]
  let ((items2, values2), ls2) ← get_list_record ls1
  let NRS := items2.2.2.2.1
  let NX := items2.2.2.2.2.2
  let ER := stride values2 0 (NCH + 1).toNat
  let GAM : List (List Dec) :=
    (List.range NRS.toNat).map (fun j =>
      listSlice values2 (1 + (NCH + 1).toNat * j) ((NCH + 1).toNat * (j + 1)))
  let base : PDict :=
    [("AJ", .F AJ), ("PJ", .F PJ), ("KBK", .I KBK), ("KPS", .I KPS),
     ("NCH", .I NCH), ("channels", .D channels), ("NRS", .I NRS), ("NX", .I NX),
     ("ER", VFl ER), ("GAM", .M GAM.transpose)]
  let (bk, ls3) ←
    if 0 < KBK then do
      let ((items3, _), ls3) ← get_list_record ls2
      let LCH := items3.2.2.1
      let LBK := items3.2.2.2.1
      let frag : PDict := [("LCH", .I LCH), ("LBK", .I LBK)]
      if LBK = 1 then do
        let ((_, RBR), ls4) ← get_tab1_record ls3
        let ((_, RBI), ls5) ← get_tab1_record ls4
        .ok ((frag ++ [("RBR", Val.T1 RBR), ("RBI", Val.T1 RBI)]), ls5)
      else if LBK = 2 ∨ LBK = 3 then do
        let ((items4, _), ls4) ← get_list_record ls3
        .ok ((frag ++ [("ED", Val.F items4.1), ("EU", Val.F items4.2.1)]), ls4)
      else .ok (frag, ls3)
    else .ok (([] : PDict), ls2)
  let (ps, ls4) ←
    if 0 < KPS then do
      let ((items5, _), ls4) ← get_list_record ls3
      let LPS := items5.2.2.2.2.1
      if LPS = 1 then do
        let ((_, PSR), ls5) ← get_tab1_record ls4
        let ((_, PSI), ls6) ← get_tab1_record ls5
        .ok (([("LPS", Val.I LPS), ("PSR", Val.T1 PSR), ("PSI", Val.T1 PSI)] : PDict), ls6)
      else .ok (([("LPS", Val.I LPS)] : PDict), ls4)
    else .ok (([] : PDict), ls3)
  .ok (.D (base ++ bk ++ ps), ls4)

/-- `RMatrixLimited.dict_from_endf` (the source takes NRO but never reads
an energy-dependent scattering radius here). -/
def RMatrixLimited_dict_from_endf (_NRO : ℤ) (ls : Lines) : Except String (PDict × Lines) := do
  let ((_, _, IFG, KRM, NJS, KRL), ls1) ← get_cont_record ls
  let ((items, values), ls2) ← get_list_record ls1
  let NPP := items.2.2.1
  let pp : PDict :=
    [("MA", VStr values 0 12), ("MB", VStr values 1 12), ("ZA", VStr values 2 12),
     ("ZB", VStr values 3 12), ("IA", VStr values 4 12), ("IB", VStr values 5 12),
     ("Q", VStr values 6 12), ("PNT", VStr values 7 12), ("SHF", VStr values 8 12),
     ("MT", VStr values 9 12), ("PA", VStr values 10 12), ("PB", VStr values 11 12)]
  let (sgs, ls3) ← loopM rmlSpinGroup NJS.toNat ls2
  .ok ([("IFG", .I IFG), ("KRM", .I KRM), ("NJS", .I NJS), ("KRL", .I KRL),
        ("NPP", .I NPP), ("particle_pairs", .D pp), ("spin_groups", .L sgs)], ls3)

/-- The `_FORMALISMS` dispatch table: `{1: SLBW, 2: MLBW, 3: ReichMoore,
4: AdlerAdler, 7: RMatrixLimited}`; any other key is a `KeyError`. -/
def formalismParse (LRF NRO : ℤ) (ls : Lines) : Except String (PDict × Lines) :=
  if LRF = 1 then MLBW_dict_from_endf NRO ls
  else if LRF = 2 then MLBW_dict_from_endf NRO ls
  else if LRF = 3 then ReichMoore_dict_from_endf NRO ls
  else if LRF = 4 then AdlerAdler_dict_from_endf NRO ls
  else if LRF = 7 then RMatrixLimited_dict_from_endf NRO ls
  else .error "KeyError: _FORMALISMS"

/-- `Unresolved.dict_from_endf`. -/
def Unresolved_dict_from_endf (LFW LRF NRO : ℤ) (ls : Lines) :
    Except String (PDict × Lines) := do
  let (ape, ls1) ←
    if NRO ≠ 0 then do
      let ((_, t), ls1) ← get_tab1_record ls
      .ok ([("APE", Val.T1 t)], ls1)
    else .ok (([] : PDict), ls)
  let (hdr, NLS0, ls2) ←
    if ¬(LFW = 1 ∧ LRF = 1) then do
      let ((SPI, AP, LSSF, _, NLS, _), ls2) ← get_cont_record ls1
      .ok ((([("SPI", Val.F SPI), ("AP", Val.F AP), ("LSSF", Val.I LSSF),
              ("NLS", Val.I NLS)] : PDict), NLS, ls2) :
            PDict × ℤ × Lines)
    else .ok ((([] : PDict), (0 : ℤ), ls1) : PDict × ℤ × Lines)
  let data := ape ++ hdr
  if LFW = 0 ∧ LRF = 1 then do
    let (rs, ls3) ← loopM (fun ls => do
        let ((items, values), ls1) ← get_list_record ls
        .ok (Val.D [("AWRI", .F items.1), ("L", .I items.2.2.1),
                    ("NJS", .I items.2.2.2.2.2),
                    ("D", VStr values 0 6), ("AJ", VStr values 1 6),
                    ("AMUN", VStr values 2 6), ("GNO", VStr values 3 6),
                    ("GG", VStr values 4 6)], ls1)) NLS0.toNat ls2
    .ok ((data ++ [("ranges", .L rs)]), ls3)
  else if LFW = 1 ∧ LRF = 1 then do
    let ((items, ES), ls3) ← get_list_record ls2
    let NLS := items.2.2.2.2.2
    let d2 := data ++ [("SPI", .F items.1), ("AP", .F items.2.1),
                       ("LSSF", .I items.2.2.1), ("NE", .I items.2.2.2.2.1),
                       ("NLS", .I NLS), ("ES", VFl ES)]
    let (rs, ls4) ← loopM (fun ls => do
        let ((AWRI, _, L, _, NJS, _), ls1) ← get_cont_record ls
        let (ps, ls2) ← loopM (fun ls => do
            let ((items2, values), ls1) ← get_list_record ls
            .ok (Val.D [("MUF", .I items2.2.2.2.1), ("D", .F (at0 values 0)),
                        ("AJ", .F (at0 values 1)), ("AMUN", .F (at0 values 2)),
                        ("GN0", .F (at0 values 3)), ("GG", .F (at0 values 4)),
                        ("GF", VFl (values.drop 6))], ls1)) NJS.toNat ls1
        .ok (Val.D [("AWRI", .F AWRI), ("L", .I L), ("NJS", .I NJS),
                    ("parameters", .L ps)], ls2)) NLS.toNat ls3
    .ok ((d2 ++ [("ranges", .L rs)]), ls4)
  else if LRF = 2 then do
    let (rs, ls3) ← loopM (fun ls => do
        let ((AWRI, _, L, _, NJS, _), ls1) ← get_cont_record ls
        let (ps, ls2) ← loopM (fun ls => do
            let ((items2, values), ls1) ← get_list_record ls
            .ok (Val.D [("AJ", .F items2.1), ("INT", .I items2.2.2.1),
                        ("NE", .I items2.2.2.2.2.2),
                        ("AMUX", .F (at0 values 2)), ("AMUN", .F (at0 values 3)),
                        ("AMUF", .F (at0 values 5)),
                        ("E", VStr values 6 6), ("D", VStr values 7 6),
                        ("GX", VStr values 8 6), ("GN0", VStr values 9 6),
                        ("GG", VStr values 10 6), ("GF", VStr values 11 6)], ls1))
          NJS.toNat ls1
        .ok (Val.D [("AWRI", .F AWRI), ("L", .I L), ("NJS", .I NJS),
                    ("parameters", .L ps)], ls2)) NLS0.toNat ls2
    .ok ((data ++ [("ranges", .L rs)]), ls3)
  else .ok (data, ls2)

/-- The body of one iteration of the resonance-range loop of `parse_mf2`,
after the range's CONT header has been read: the source dispatches on
(LRF, LRU) to a scattering-radius CONT, a resolved formalism from
`_FORMALISMS` (fatal `NotImplementedError` for Adler-Adler, LRF=4), or the
unresolved reader (note the source tests `LRF == 2` for that branch). -/
def mf2RangeBody (LFW LRU LRF NRO : ℤ) (ls : Lines) : Except String (PDict × Lines) :=
  if LRF = 0 then do
    let ((SPI, AP, _, _, NLS, _), ls1) ← get_cont_record ls
    .ok (([("SPI", Val.F SPI), ("AP", Val.F AP), ("NLS", Val.I NLS)] : PDict), ls1)
  else if LRU = 0 ∨ LRU = 1 then formalismParse LRF NRO ls
  else if LRF = 2 then Unresolved_dict_from_endf LFW LRF NRO ls
  else .ok (([] : PDict), ls)

/-- `parse_mf2`: HEAD, then NIS isotopes, each with NER resonance ranges. -/
def parse_mf2 (ls : Lines) : Except String (Val × Lines) := do
  let ((ZA, AWR, _, _, NIS, _), ls1) ← get_head_record ls
  let (isos, ls2) ← loopM (fun ls => do
      let ((ZAI, ABN, _, LFW, NER, _), ls1) ← get_cont_record ls
      let (rs, ls2) ← loopM (fun ls => do
          let ((EL, EH, LRU, LRF, NRO, NAPS), ls1) ← get_cont_record ls
          let base : PDict :=
            [("EL", .F EL), ("EH", .F EH), ("LRU", .I LRU), ("LRF", .I LRF),
             ("NRO", .I NRO), ("NAPS", .I NAPS)]
          let (frag, ls2) ← mf2RangeBody LFW LRU LRF NRO ls1
          .ok (Val.D (dUpdate base frag), ls2)) NER.toNat ls1
      .ok (Val.D [("ZAI", .F ZAI), ("ABN", .F ABN), ("LFW", .I LFW),
                  ("NER", .I NER), ("ranges", .L rs)], ls2)) NIS.toNat ls1
  .ok (.D [("ZA", .I ZA), ("AWR", .F AWR), ("NIS", .I NIS),
           ("isotopes", .L isos)], ls2)

/-! ### Section parser, MF=4 (`endf/mf4.py`) -/

/-- The `legendre_data` helper of `parse_mf4`: a TAB2 grid followed by one
LIST of Legendre coefficients per incident energy (T and LT keep the last
record's values, as repeated dict assignment does). -/
def mf4LegendreData (ls : Lines) : Except String (Val × Lines) := do
  let ((params, tab2), ls1) ← get_tab2_record ls
  let nE := params.2.2.2.2.2
  let (recs, ls2) ← loopM (fun ls => do
      let ((items, al), ls1) ← get_list_record ls
      .ok ((items.1, items.2.1, items.2.2.1, al), ls1)) nE.toNat ls1
  let tlt : PDict :=
    match recs.getLast? with
    | Option.some r => [("T", .F r.1), ("LT", .I r.2.2.1)]
    | Option.none => []
  .ok (.D ([("E_int", Val.T2 tab2.1 tab2.2)] ++ tlt ++
           [("a_l", .L (recs.map (fun r => VFl r.2.2.2))),
            ("E", VFl (recs.map (fun r => r.2.1)))]), ls2)

/-- The `tabulated_data` helper of `parse_mf4`: a TAB2 grid followed by one
TAB1 per incident energy. -/
def mf4TabulatedData (ls : Lines) : Except String (Val × Lines) := do
  let ((params, tab2), ls1) ← get_tab2_record ls
  let nE := params.2.2.2.2.2
  let (recs, ls2) ← loopM (fun ls => do
      let ((p, f), ls1) ← get_tab1_record ls
      .ok ((p.1, p.2.1, p.2.2.1, f), ls1)) nE.toNat ls1
  let tlt : PDict :=
    match recs.getLast? with
    | Option.some r => [("T", .F r.1), ("LT", .I r.2.2.1)]
    | Option.none => []
  .ok (.D ([("E_int", Val.T2 tab2.1 tab2.2)] ++ tlt ++
           [("E", VFl (recs.map (fun r => r.2.1))),
            ("mu", .L (recs.map (fun r => Val.T1 r.2.2.2)))]), ls2)

/-- `parse_mf4`: angular distributions; LVT>0 means an obsolete energy
transformation matrix is skipped (with a warning, not modelled); (LTT, LI)
select Legendre and/or tabulated representations. -/
def parse_mf4 (ls : Lines) : Except String (Val × Lines) := do
  let ((ZA, AWR, LVT, LTT, _, _), ls1) ← get_head_record ls
  let ((_, _, LI, LCT, NK, _), ls2) ← get_cont_record ls1
  let base : PDict :=
    [("ZA", .I ZA), ("AWR", .F AWR), ("LTT", .I LTT), ("LI", .I LI), ("LCT", .I LCT)]
  let ls3 := if 0 < LVT then ls2.drop ((NK + 5).fdiv 6).toNat else ls2
  if LTT = 0 ∧ LI = 1 then .ok (.D base, ls3)
  else if LTT = 1 ∧ LI = 0 then do
    let (leg, ls4) ← mf4LegendreData ls3
    .ok (.D (base ++ [("legendre", leg)]), ls4)
  else if LTT = 2 ∧ LI = 0 then do
    let (tab, ls4) ← mf4TabulatedData ls3
    .ok (.D (base ++ [("tabulated", tab)]), ls4)
  else if LTT = 3 ∧ LI = 0 then do
    let (leg, ls4) ← mf4LegendreData ls3
    let (tab, ls5) ← mf4TabulatedData ls4
    .ok (.D (base ++ [("legendre", leg), ("tabulated", tab)]), ls5)
  else .ok (.D base, ls3)

/-! ### Section parser, MF=5 (`endf/mf5.py`) -/

/-- `ArbitraryTabulated.dict_from_endf` (LF=1). -/
def ArbitraryTabulated_dict (ls : Lines) : Except String (Val × Lines) := do
  let ((params, tab2), ls1) ← get_tab2_record ls
  let nE := params.2.2.2.2.2
  let (recs, ls2) ← loopM (fun ls => do
      let ((p, f), ls1) ← get_tab1_record ls
      .ok ((p.2.1, f), ls1)) nE.toNat ls1
  .ok (.D [("E_int", .T2 tab2.1 tab2.2), ("E", VFl (recs.map Prod.fst)),
           ("g", .L (recs.map (Val.T1 ∘ Prod.snd)))], ls2)

/-- `GeneralEvaporation.dict_from_endf` (LF=5). -/
def GeneralEvaporation_dict (U : Dec) (ls : Lines) : Except String (Val × Lines) := do
  let ((_, theta), ls1) ← get_tab1_record ls
  let ((_, g), ls2) ← get_tab1_record ls1
  .ok (.D [("U", .F U), ("theta", .T1 theta), ("g", .T1 g)], ls2)

/-- `MaxwellEnergy.dict_from_endf` (LF=7). -/
def MaxwellEnergy_dict (U : Dec) (ls : Lines) : Except String (Val × Lines) := do
  let ((_, theta), ls1) ← get_tab1_record ls
  .ok (.D [("U", .F U), ("theta", .T1 theta)], ls1)

/-- `Evaporation.dict_from_endf` (LF=9). -/
def Evaporation_dict (U : Dec) (ls : Lines) : Except String (Val × Lines) := do
  let ((_, theta), ls1) ← get_tab1_record ls
  .ok (.D [("U", .F U), ("theta", .T1 theta)], ls1)

/-- `WattEnergy.dict_from_endf` (LF=11). -/
def WattEnergy_dict (U : Dec) (ls : Lines) : Except String (Val × Lines) := do
  let ((_, a), ls1) ← get_tab1_record ls
  let ((_, b), ls2) ← get_tab1_record ls1
  .ok (.D [("U", .F U), ("a", .T1 a), ("b", .T1 b)], ls2)

/-- `MadlandNix.dict_from_endf` (LF=12). -/
def MadlandNix_dict (EFL EFH : Dec) (ls : Lines) : Except String (Val × Lines) := do
  let ((_, T_M), ls1) ← get_tab1_record ls
  .ok (.D [("EFL", .F EFL), ("EFH", .F EFH), ("T_M", .T1 T_M)], ls1)

/-- The subsection loop of `parse_mf5`.  The local variable `dist` is only
assigned inside the recognized-LF branches; for an unrecognized LF the
source reads `dist` unassigned, which raises `NameError` on the first
iteration and silently reuses the previous distribution afterwards — the
`prev` argument models exactly that. -/
def mf5Subsections (prev : Option Val) :
    Nat → Lines → Except String (List Val × Lines)
  | 0, ls => .ok ([], ls)
  | n + 1, ls => do
      let ((params, applicability), ls1) ← get_tab1_record ls
      let LF := params.2.2.2
      let (dist, ls2) ←
        if LF = 1 then (ArbitraryTabulated_dict ls1).map (fun p => (Option.some p.1, p.2))
        else if LF = 5 then (GeneralEvaporation_dict params.1 ls1).map (fun p => (Option.some p.1, p.2))
        else if LF = 7 then (MaxwellEnergy_dict params.1 ls1).map (fun p => (Option.some p.1, p.2))
        else if LF = 9 then (Evaporation_dict params.1 ls1).map (fun p => (Option.some p.1, p.2))
        else if LF = 11 then (WattEnergy_dict params.1 ls1).map (fun p => (Option.some p.1, p.2))
        else if LF = 12 then (MadlandNix_dict params.1 params.2.1 ls1).map (fun p => (Option.some p.1, p.2))
        else .ok (prev, ls1)
      match dist with
      | Option.none => .error "NameError: dist is not defined"
      | Option.some d => do
          let sub := Val.D [("LF", .I LF), ("p", .T1 applicability), ("distribution", d)]
          let (subs, ls3) ← mf5Subsections (Option.some d) n ls2
          .ok (sub :: subs, ls3)

/-- `parse_mf5`: NK energy-distribution subsections, each an applicability
TAB1 followed by an LF-dispatched distribution. -/
def parse_mf5 (ls : Lines) : Except String (Val × Lines) := do
  let ((ZA, AWR, _, _, NK, _), ls1) ← get_head_record ls
  let (subs, ls2) ← mf5Subsections Option.none NK.toNat ls1
  .ok (.D [("ZA", .I ZA), ("AWR", .F AWR), ("NK", .I NK),
           ("subsections", .L subs)], ls2)

/-! ### Section parser, MF=6 (`endf/mf6.py`) -/

/-- `ContinuumEnergyAngle.dict_from_endf` (LAW=1): each LIST is reshaped
into an (NEP, NA+2) matrix whose first column is the outgoing energy. -/
def ContinuumEnergyAngle_dict (ls : Lines) : Except String (Val × Lines) := do
  let ((params, tab2), ls1) ← get_tab2_record ls
  let LANG := params.2.2.1
  let LEP := params.2.2.2.1
  let NR := params.2.2.2.2.1
  let NE := params.2.2.2.2.2
  let (recs, ls2) ← loopM (fun ls => do
      let ((items, values), ls1) ← get_list_record ls
      let ND := items.2.2.1
      let NA := items.2.2.2.1
      let NW := items.2.2.2.2.1
      let NEP := items.2.2.2.2.2
      let rows : List (List Dec) :=
        (List.range NEP.toNat).map (fun j =>
          listSlice values ((NA + 2).toNat * j) ((NA + 2).toNat * (j + 1)))
      let dist := Val.D [("ND", .I ND), ("NA", .I NA), ("NW", .I NW), ("NEP", .I NEP),
                         ("E\x27", VFl (rows.map (fun r => at0 r 0))),
                         ("b", .M (rows.map (fun r => r.drop 1)))]
      .ok ((items.2.1, dist), ls1)) NE.toNat ls1
  .ok (.D [("LANG", .I LANG), ("LEP", .I LEP), ("NR", .I NR), ("NE", .I NE),
           ("E_int", .T2 tab2.1 tab2.2), ("E", VFl (recs.map Prod.fst)),
           ("distribution", .L (recs.map Prod.snd))], ls2)

/-- `DiscreteTwoBodyScattering.dict_from_endf` (LAW=2): the source builds a
dict but has no `return` statement, so the caller stores Python `None`;
the records are still consumed from the stream. -/
def DiscreteTwoBodyScattering_dict (ls : Lines) : Except String (Val × Lines) := do
  let ((params, _), ls1) ← get_tab2_record ls
  let NE := params.2.2.2.2.2
  let (_, ls2) ← loopM (fun ls => do
      let ((items, values), ls1) ← get_list_record ls
      .ok ((items, values), ls1)) NE.toNat ls1
  .ok (.NoneV, ls2)

/-- `ChargedParticleElasticScattering.dict_from_endf` (LAW=5). -/
def ChargedParticleElastic_dict (ls : Lines) : Except String (Val × Lines) := do
  let ((params, tab2), ls1) ← get_tab2_record ls
  let SPI := params.1
  let LIDP := params.2.2.1
  let NE := params.2.2.2.2.2
  let (dists, ls2) ← loopM (fun ls => do
      let ((items, A), ls1) ← get_list_record ls
      .ok (Val.D [("E", .F items.2.1), ("LTP", .I items.2.2.1),
                  ("NW", .I items.2.2.2.2.1), ("NL", .I items.2.2.2.2.2),
                  ("A", VFl A)], ls1)) NE.toNat ls1
  .ok (.D [("SPI", .F SPI), ("LIDP", .I LIDP), ("NE", .I NE),
           ("E_int", .T2 tab2.1 tab2.2), ("distribution", .L dists)], ls2)

/-- `NBodyPhaseSpace.dict_from_endf` (LAW=6). -/
def NBodyPhaseSpace_dict (ls : Lines) : Except String (Val × Lines) := do
  let ((APSX, _, _, _, _, NPSX), ls1) ← get_cont_record ls
  .ok (.D [("APSX", .F APSX), ("NPSX", .I NPSX)], ls1)

/-- `LaboratoryAngleEnergy.dict_from_endf` (LAW=7). -/
def LaboratoryAngleEnergy_dict (ls : Lines) : Except String (Val × Lines) := do
  let ((params, tab2), ls1) ← get_tab2_record ls
  let NE := params.2.2.2.2.2
  let (dists, ls2) ← loopM (fun ls => do
      let ((p2, mu_int), ls1) ← get_tab2_record ls
      let NMU := p2.2.2.2.2.2
      let (mus, ls2) ← loopM (fun ls => do
          let ((p3, f), ls1) ← get_tab1_record ls
          .ok (Val.D [("mu", .F p3.2.1), ("f", .T1 f)], ls1)) NMU.toNat ls1
      .ok (Val.D [("E", .F p2.2.1), ("NRM", .I p2.2.2.2.2.1), ("NMU", .I NMU),
                  ("mu_int", .T2 mu_int.1 mu_int.2), ("mu", .L mus)], ls2))
    NE.toNat ls1
  .ok (.D [("NE", .I NE), ("E_int", .T2 tab2.1 tab2.2),
           ("distribution", .L dists)], ls2)

/-- `parse_mf6`: NK products, each a yield TAB1 and a LAW-dispatched
distribution (LAW<0, 0, 3, 4 and unknown LAW values attach none). -/
def parse_mf6 (ls : Lines) : Except String (Val × Lines) := do
  let ((ZA, AWR, JP, LCT, NK, _), ls1) ← get_head_record ls
  let (products, ls2) ← loopM (fun ls => do
      let ((params, y_i), ls1) ← get_tab1_record ls
      let ZAP := params.1.toInt
      let LIP := params.2.2.1
      let LAW := params.2.2.2
      let base : PDict :=
        [("ZAP", .I ZAP), ("AWP", .F params.2.1), ("LIP", .I LIP),
         ("LAW", .I LAW), ("y_i", .T1 y_i)]
      if LAW = 1 then do
        let (d, ls2) ← ContinuumEnergyAngle_dict ls1
        .ok (Val.D (base ++ [("distribution", d)]), ls2)
      else if LAW = 2 then do
        let (d, ls2) ← DiscreteTwoBodyScattering_dict ls1
        .ok (Val.D (base ++ [("distribution", d)]), ls2)
      else if LAW = 5 then do
        let (d, ls2) ← ChargedParticleElastic_dict ls1
        .ok (Val.D (base ++ [("distribution", d)]), ls2)
      else if LAW = 6 then do
        let (d, ls2) ← NBodyPhaseSpace_dict ls1
        .ok (Val.D (base ++ [("distribution", d)]), ls2)
      else if LAW = 7 then do
        let (d, ls2) ← LaboratoryAngleEnergy_dict ls1
        .ok (Val.D (base ++ [("distribution", d)]), ls2)
      else .ok (Val.D base, ls1)) NK.toNat ls1
  .ok (.D [("ZA", .I ZA), ("AWR", .F AWR), ("JP", .I JP), ("LCT", .I LCT),
           ("NK", .I NK), ("products", .L products)], ls2)

/-- `parse_mf26`: secondary distributions for atomic data; LAW ∈ {1, 2, 8}
are handled, anything else warns (not modelled) and attaches nothing. -/
def parse_mf26 (ls : Lines) : Except String (Val × Lines) := do
  let ((ZA, AWR, _, _, NK, _), ls1) ← get_head_record ls
  let (products, ls2) ← loopM (fun ls => do
      let ((params, y), ls1) ← get_tab1_record ls
      let ZAP := params.1.toInt
      let LAW := params.2.2.2
      let base : PDict :=
        [("ZAP", .I ZAP), ("AWI", .F params.2.1), ("LAW", .I LAW), ("y", .T1 y)]
      if LAW = 1 then do
        let (d, ls2) ← ContinuumEnergyAngle_dict ls1
        .ok (Val.D (base ++ [("distribution", d)]), ls2)
      else if LAW = 2 then do
        let (d, ls2) ← DiscreteTwoBodyScattering_dict ls1
        .ok (Val.D (base ++ [("distribution", d)]), ls2)
      else if LAW = 8 then do
        let ((_, ET), ls2) ← get_tab1_record ls1
        .ok (Val.D (base ++ [("distribution", Val.D [("ET", .T1 ET)])]), ls2)
      else .ok (Val.D base, ls1)) NK.toNat ls1
  .ok (.D [("ZA", .I ZA), ("AWR", .F AWR), ("NK", .I NK),
           ("products", .L products)], ls2)

/-! ### Section parsers, MF=7 (`endf/mf7.py`) -/

/-- The `get_coherent_elastic` helper of `parse_mf7_mt2`: a TAB1 structure
factor at the first temperature, then LT LIST records for the others. -/
def mf7CoherentElastic (ls : Lines) : Except String (Val × Lines) := do
  let ((params, S), ls1) ← get_tab1_record ls
  let T := params.1
  let LT := params.2.2.1
  let first := Val.D [("T", .F T), ("LT", .I LT), ("S", .T1 S)]
  let (more, ls2) ← loopM (fun ls => do
      let ((items, S2), ls1) ← get_list_record ls
      .ok (Val.D [("T", .F items.1), ("LI", .I items.2.2.1), ("S", VFl S2)], ls1))
    LT.toNat ls1
  .ok (.L (first :: more), ls2)

/-- The `get_incoherent_elastic` helper of `parse_mf7_mt2`. -/
def mf7IncoherentElastic (ls : Lines) : Except String (Val × Lines) := do
  let ((params, W), ls1) ← get_tab1_record ls
  .ok (.D [("SB", .F params.1), ("W", .T1 W)], ls1)

/-- `parse_mf7_mt2`: thermal elastic scattering, coherent (LHTR=1),
incoherent (LHTR=2) or mixed (LHTR=3). -/
def parse_mf7_mt2 (ls : Lines) : Except String (Val × Lines) := do
  let ((ZA, AWR, LHTR, _, _, _), ls1) ← get_head_record ls
  let base : PDict := [("ZA", .I ZA), ("AWR", .F AWR), ("LHTR", .I LHTR)]
  if LHTR = 1 then do
    let (c, ls2) ← mf7CoherentElastic ls1
    .ok (.D (base ++ [("coherent", c)]), ls2)
  else if LHTR = 2 then do
    let (ic, ls2) ← mf7IncoherentElastic ls1
    .ok (.D (base ++ [("incoherent", ic)]), ls2)
  else if LHTR = 3 then do
    let (c, ls2) ← mf7CoherentElastic ls1
    let (ic, ls3) ← mf7IncoherentElastic ls2
    .ok (.D (base ++ [("coherent", c), ("incoherent", ic)]), ls3)
  else .ok (.D base, ls1)

/-- The per-beta temperature loop of `parse_mf7_mt4` (a TAB1 at the first
temperature, LT LIST records after; the key `LT` on the later entries
repeats the first record's LT, as in the source). -/
def mf7BetaData (ls : Lines) : Except String (Val × Lines) := do
  let ((params, S), ls1) ← get_tab1_record ls
  let T := params.1
  let beta := params.2.1
  let LT := params.2.2.1
  let first := Val.D [("T", .F T), ("beta", .F beta), ("LT", .I LT), ("S", .T1 S)]
  let (more, ls2) ← loopM (fun ls => do
      let ((items, S2), ls1) ← get_list_record ls
      .ok (Val.D [("T", .F items.1), ("beta", .F items.2.1), ("LT", .I LT),
                  ("S", VFl S2)], ls1)) LT.toNat ls1
  .ok (.L (first :: more), ls2)

/-- The effective-temperature loop of `parse_mf7_mt4`: one extra TAB1 for
every secondary atom whose `B[6*(i+1)]` entry is zero. -/
def mf7TeffLoop (B : List Dec) : Nat → Nat → Lines → Except String (List Val × Lines)
  | _, 0, ls => .ok ([], ls)
  | i, n + 1, ls =>
      match B.get? (6 * (i + 1)) with
      | Option.none => .error "IndexError: B"
      | Option.some v =>
          if v.isZero then do
            let ((_, Teff), ls1) ← get_tab1_record ls
            let (more, ls2) ← mf7TeffLoop B (i + 1) n ls1
            .ok (Val.T1 Teff :: more, ls2)
          else mf7TeffLoop B (i + 1) n ls

/-- `parse_mf7_mt4`: incoherent inelastic thermal scattering. -/
def parse_mf7_mt4 (ls : Lines) : Except String (Val × Lines) := do
  let ((ZA, AWR, _, LAT, LASYM, _), ls1) ← get_head_record ls
  let ((params, B), ls2) ← get_list_record ls1
  let LLN := params.2.2.1
  let NI := params.2.2.2.2.1
  let NS := params.2.2.2.2.2
  let base : PDict :=
    [("ZA", .I ZA), ("AWR", .F AWR), ("LAT", .I LAT), ("LASYM", .I LASYM),
     ("LLN", .I LLN), ("NI", .I NI), ("NS", .I NS), ("B", VFl B)]
  let (sab, ls3) ← do
    match B.get? 0 with
    | Option.none => .error "IndexError: B"
    | Option.some b0 =>
      if b0.isPos then do
        let ((p2, tab2), ls3) ← get_tab2_record ls2
        let NB := p2.2.2.2.2.2
        let (bd, ls4) ← loopM mf7BetaData NB.toNat ls3
        .ok (([("beta_int", Val.T2 tab2.1 tab2.2), ("NB", Val.I NB),
               ("beta_data", Val.L bd)] : PDict), ls4)
      else .ok (([] : PDict), ls2)
  let ((_, Teff0), ls4) ← get_tab1_record ls3
  let (teffs, ls5) ← mf7TeffLoop B 0 NS.toNat ls4
  .ok (.D (base ++ sab ++ [("Teff", .L (Val.T1 Teff0 :: teffs))]), ls5)

/-- `parse_mf7_mt451`: thermal scattering general information. -/
def parse_mf7_mt451 (ls : Lines) : Except String (Val × Lines) := do
  let ((ZA, AWR, NA, _, _, _), ls1) ← get_head_record ls
  let (elements, ls2) ← loopM (fun ls => do
      let ((params, values), ls1) ← get_list_record ls
      .ok (Val.D [("NAS", .I params.2.2.1), ("NI", .I params.2.2.2.2.2),
                  ("ZAI", VStr values 0 6), ("LISI", VStr values 1 6),
                  ("AFI", VStr values 2 6), ("AWRI", VStr values 3 6),
                  ("SFI", VStr values 4 6)], ls1)) NA.toNat ls1
  .ok (.D [("ZA", .I ZA), ("AWR", .F AWR), ("NA", .I NA),
           ("elements", .L elements)], ls2)

/-! ### Section parsers, MF=8 (`endf/mf8.py`) -/

/-- `parse_mf8`: radioactive nuclide production, one LIST (NO=0) or CONT
(NO=1) per subsection.  For any other NO the source reads an unassigned
local, a `NameError` (or a stale value) — only NO ∈ {0, 1} is modelled. -/
def parse_mf8 (ls : Lines) : Except String (Val × Lines) := do
  let ((ZA, AWR, LIS, LISO, NS, NO), ls1) ← get_head_record ls
  let (subs, ls2) ← loopM (fun ls => do
      if NO = 0 then do
        let ((items, values), ls1) ← get_list_record ls
        let ND : ℤ := values.length / 6
        .ok (Val.D [("ZAP", .F items.1), ("ELFS", .F items.2.1),
                    ("LMF", .I items.2.2.1), ("LFS", .I items.2.2.2.1),
                    ("ND", .I ND),
                    ("HL", VStr values 0 6), ("RTYP", VStr values 1 6),
                    ("ZAN", VStr values 2 6), ("BR", VStr values 3 6),
                    ("END", VStr values 4 6), ("CT", VStr values 5 6)], ls1)
      else if NO = 1 then do
        let ((ZAP, ELFS, LMF, LFS, _, _), ls1) ← get_cont_record ls
        .ok (Val.D [("ZAP", .F ZAP), ("ELFS", .F ELFS), ("LMF", .I LMF),
                    ("LFS", .I LFS)], ls1)
      else .error "NameError: subsection is not defined") NS.toNat ls1
  .ok (.D [("ZA", .I ZA), ("AWR", .F AWR), ("LIS", .I LIS), ("LISO", .I LISO),
           ("NS", .I NS), ("NO", .I NO), ("subsections", .L subs)], ls2)

/-- `parse_mf8_mt454` (also MT=459): fission product yields per incident
energy; the third header field of the first LIST is stored as `LE` and as
`I` afterwards. -/
def parse_mf8_mt454 (ls : Lines) : Except String (Val × Lines) := do
  let ((ZA, AWRd, LEp1, _, _, _), ls1) ← get_head_record ls
  let LE := LEp1 - 1
  let (ys, ls2) ← loopIdxM (fun i ls => do
      let ((items, values), ls1) ← get_list_record ls
      let I := items.2.2.1
      let NN := items.2.2.2.2.1
      let NFP := items.2.2.2.2.2
      let products :=
        (List.range NFP.toNat).map (fun j =>
          Val.D [("ZAFP", .F (at0 values (4 * j))), ("FPS", .F (at0 values (4 * j + 1))),
                 ("Y", VPair (at0 values (4 * j + 2)) (at0 values (4 * j + 3)))])
      .ok (Val.D [("E", .F items.1), ("NN", .I NN), ("NFP", .I NFP),
                  (if i = 0 then "LE" else "I", .I I),
                  ("products", .L products)], ls1))
    0 (LE + 1).toNat ls1
  .ok (.D [("ZA", .I ZA), ("AWR", .F AWRd), ("LE", .I LE), ("yields", .L ys)], ls2)

/-- One spectrum of `parse_mf8_mt457`. -/
def mt457Spectrum (ls : Lines) : Except String (Val × Lines) := do
  let ((items, values), ls1) ← get_list_record ls
  let STYP := items.2.1
  let LCON := items.2.2.1
  let LCOV := items.2.2.2.1
  let NER := items.2.2.2.2.2
  let base : PDict :=
    [("STYP", .F STYP), ("LCON", .I LCON), ("LCOV", .I LCOV), ("NER", .I NER),
     ("FD", VFl (listSlice values 0 2)), ("ER_AV", VFl (listSlice values 2 4)),
     ("FC", VFl (listSlice values 4 6))]
  let (disc, ls2) ←
    if LCON ≠ 1 then do
      let (ds, ls2) ← loopM (fun ls => do
          let ((items2, values2), ls1) ← get_list_record ls
          let d0 : PDict :=
            [("ER", VPair items2.1 items2.2.1), ("RTYP", .F (at0 values2 0)),
             ("TYPE", .F (at0 values2 1))]
          let d1 : PDict :=
            if STYP.isZero then
              d0 ++ [("RI", VFl (listSlice values2 2 4)), ("RIS", VFl (listSlice values2 4 6)),
                     ("RICC", VFl (listSlice values2 6 8)), ("RICK", VFl (listSlice values2 8 10)),
                     ("RICL", VFl (listSlice values2 10 12))]
            else d0
          .ok (Val.D d1, ls1)) NER.toNat ls
      .ok (([("discrete", Val.L ds)] : PDict), ls2)
    else .ok (([] : PDict), ls1)
  let (cont, ls3) ←
    if LCON ≠ 0 then do
      let ((params, RP), ls3) ← get_tab1_record ls2
      .ok (([("continuous", Val.D [("RTYP", .F params.1), ("RP", .T1 RP)])] : PDict), ls3)
    else .ok (([] : PDict), ls2)
  let (contCov, ls4) ←
    if ¬(LCOV = 0 ∨ LCOV = 2) ∧ LCON ≠ 0 then do
      let ((items3, values3), ls4) ← get_list_record ls3
      .ok (([("continuous_covariance",
              Val.D [("LB", .I items3.2.2.2.1), ("Ek", VStr values3 0 2),
                     ("Fk", VStr values3 1 2)])] : PDict), ls4)
    else .ok (([] : PDict), ls3)
  let (discCov, ls5) ←
    if ¬(LCOV = 0 ∨ LCOV = 1) then do
      let ((items4, values4), ls5) ← get_list_record ls4
      let NERP := items4.2.2.2.2.2
      .ok (([("discrete_covariance",
              Val.D [("LS", .I items4.2.2.1), ("LB", .I items4.2.2.2.1),
                     ("NE", .I items4.2.2.2.2.1), ("NERP", .I NERP),
                     ("Ek", VFl (values4.take NERP.toNat)),
                     ("Fkk", VFl (values4.drop NERP.toNat))])] : PDict), ls5)
    else .ok (([] : PDict), ls4)
  .ok (.D (base ++ disc ++ cont ++ contCov ++ discCov), ls5)

/-- `parse_mf8_mt457`: radioactive decay data. -/
def parse_mf8_mt457 (ls : Lines) : Except String (Val × Lines) := do
  let ((ZA, AWR, LIS, LISO, NST, NSP), ls1) ← get_head_record ls
  let base : PDict :=
    [("ZA", .I ZA), ("AWR", .F AWR), ("LIS", .I LIS), ("LISO", .I LISO),
     ("NST", .I NST), ("NSP", .I NSP)]
  if NST = 1 then do
    let (_, ls2) ← get_list_record ls1
    let ((items, _), ls3) ← get_list_record ls2
    .ok (.D (base ++ [("SPI", .F items.1), ("PAR", .F items.2.1)]), ls3)
  else do
    let ((items, values), ls2) ← get_list_record ls1
    let NC := items.2.2.2.2.1.fdiv 2
    let half : PDict :=
      [("T1/2", VPair items.1 items.2.1), ("NC", .I NC),
       ("Ex", .L (List.zipWith VPair (stride values 0 2) (stride values 1 2)))]
    let ((items2, values2), ls3) ← get_list_record ls2
    let NDK := items2.2.2.2.2.2
    let modes :=
      (List.range NDK.toNat).map (fun i =>
        Val.D [("RTYP", .F (at0 values2 (6 * i))), ("RFS", .F (at0 values2 (6 * i + 1))),
               ("Q", VFl (listSlice values2 (6 * i + 2) (6 * i + 4))),
               ("BR", VFl (listSlice values2 (6 * i + 4) (6 * (i + 1))))])
    let (spectra, ls4) ← loopM mt457Spectrum NSP.toNat ls3
    .ok (.D (base ++ half ++ [("SPI", .F items2.1), ("PAR", .F items2.2.1),
             ("NDK", .I NDK), ("modes", .L modes), ("spectra", .L spectra)]), ls4)

/-! ### Section parsers, MF=33/34/40 (`endf/mf33.py`, `mf34.py`, `mf40.py`) -/

/-- One NC-type sub-subsection of `parse_mf33_subsection`.  As in the
source, the LTY=0 branch appends the record to the list inside the branch
AND the shared append after the if/else runs too, so an LTY=0 record is
appended twice while an LTY≠0 record is appended once. -/
def mf33NCRecord (ls : Lines) : Except String (List Val × Lines) := do
  let ((hdr, _, _, LTY, _, _), ls1) ← get_cont_record ls
  let _ := hdr
  if LTY = 0 then do
    let ((items, values), ls2) ← get_list_record ls1
    let subsub := Val.D [("LTY", .I LTY), ("E1", .F items.1), ("E2", .F items.2.1),
                         ("NCI", .I items.2.2.2.2.2),
                         ("CI", VStr values 0 2), ("XMTI", VStr values 1 2)]
    .ok ([subsub, subsub], ls2)
  else do
    let ((items, values), ls2) ← get_list_record ls1
    let subsub := Val.D [("LTY", .I LTY), ("E1", .F items.1), ("E2", .F items.2.1),
                         ("MATS", .I items.2.2.1), ("MTS", .I items.2.2.2.1),
                         ("NEI", .I items.2.2.2.2.2),
                         ("XMFS", .F (at0 values 0)), ("XLFSS", .F (at0 values 1)),
                         ("EI", VStr values 2 2), ("WEI", VStr values 3 2)]
    .ok ([subsub], ls2)

/-- The NC loop of `parse_mf33_subsection`. -/
def mf33NCLoop : Nat → Lines → Except String (List Val × Lines)
  | 0, ls => .ok ([], ls)
  | n + 1, ls => do
      let (vs, ls1) ← mf33NCRecord ls
      let (more, ls2) ← mf33NCLoop n ls1
      .ok (vs ++ more, ls2)

/-- One NI-type sub-subsection of `parse_mf33_subsection`: the LB flag is
peeked from the next CONT-shaped line (seek-and-rewind) and selects the
matrix packing convention. -/
def mf33NIRecord (ls : Lines) : Except String (Val × Lines) := do
  let ((_, _, _, LBpeek, _, _), _) ← get_cont_record ls
  if 0 ≤ LBpeek ∧ LBpeek ≤ 4 then do
    let ((items, values), ls1) ← get_list_record ls
    let LT := items.2.2.1
    let LB := items.2.2.2.1
    let NT := items.2.2.2.2.1
    let NP := items.2.2.2.2.2
    let kArr := values.take (NT - NP).toNat
    let lArr := values.drop (NT - NP).toNat
    .ok (Val.D [("LT", .I LT), ("LB", .I LB), ("NT", .I NT), ("NP", .I NP),
                ("Ek", VStr kArr 0 2), ("Fk", VStr kArr 1 2),
                ("El", VStr lArr 0 2), ("Fl", VStr lArr 1 2)], ls1)
  else if LBpeek = 5 then do
    let ((items, values), ls1) ← get_list_record ls
    let NE := items.2.2.2.2.2
    .ok (Val.D [("LS", .I items.2.2.1), ("LB", .I items.2.2.2.1),
                ("NT", .I items.2.2.2.2.1), ("NE", .I NE),
                ("Ek", VFl (values.take NE.toNat)),
                ("Fkk", VFl (values.drop NE.toNat))], ls1)
  else if LBpeek = 6 then do
    let ((items, values), ls1) ← get_list_record ls
    let NT := items.2.2.2.2.1
    let NER := items.2.2.2.2.2
    let NEC := (NT - 1).fdiv NER
    .ok (Val.D [("LB", .I items.2.2.2.1), ("NT", .I NT), ("NER", .I NER),
                ("NEC", .I NEC),
                ("ER", VFl (values.take NER.toNat)),
                ("EC", VFl (listSlice values NER.toNat (NER + NEC).toNat)),
                ("Fkl", VFl (values.drop (NER + NEC).toNat))], ls1)
  else if LBpeek = 8 ∨ LBpeek = 9 then do
    let ((items, values), ls1) ← get_list_record ls
    .ok (Val.D [("LT", .I items.2.2.1), ("LB", .I items.2.2.2.1),
                ("NT", .I items.2.2.2.2.1), ("NP", .I items.2.2.2.2.2),
                ("Ek", VStr values 0 2), ("Fk", VStr values 1 2)], ls1)
  else .error "ValueError: Unrecognized LB"

/-- `parse_mf33_subsection`: a CONT header with NC and NI counts, then the
NC-type records (see `mf33NCRecord`) and the NI-type records. -/
def parse_mf33_subsection (ls : Lines) : Except String (Val × Lines) := do
  let ((XMF1, XLFS1, MAT1, MT1, NC, NI), ls1) ← get_cont_record ls
  let (ncs, ls2) ← mf33NCLoop NC.toNat ls1
  let (nis, ls3) ← loopM mf33NIRecord NI.toNat ls2
  .ok (.D [("XMF1", .F XMF1), ("XLFS1", .F XLFS1), ("MAT1", .I MAT1),
           ("MT1", .I MT1), ("NC", .I NC), ("NI", .I NI),
           ("nc_subsections", .L ncs), ("ni_subsections", .L nis)], ls3)

/-- `parse_mf33`: cross-section covariances, NL subsections. -/
def parse_mf33 (ls : Lines) : Except String (Val × Lines) := do
  let ((ZA, AWR, _, MTL, _, NL), ls1) ← get_head_record ls
  let (subs, ls2) ← loopM parse_mf33_subsection NL.toNat ls1
  .ok (.D [("ZA", .I ZA), ("AWR", .F AWR), ("MTL", .I MTL), ("NL", .I NL),
           ("subsections", .L subs)], ls2)

/-- `parse_mf34`: angular distribution covariances.  As in the source, the
per-MT1 subsection dict is built (and the stream consumed) but never
appended to `subsections`, which stays empty; the source also stores LS
in the `LB` slot of each sub-subsection. -/
def parse_mf34 (MT : ℤ) (ls : Lines) : Except String (Val × Lines) := do
  let ((ZA, AWR, _, LTT, _, NMT1), ls1) ← get_head_record ls
  let (_, ls2) ← loopM (fun ls => do
      let ((_, _, MAT1, MT1, NL, NL1), ls1) ← get_cont_record ls
      let NSS : ℤ := if MT1 = 0 ∨ MT = MT1 then (NL * (NL + 1)).fdiv 2 else NL * NL1
      let (subsubs, ls2) ← loopIdxM (fun _ ls => do
          let ((_, _, L, L1, LCT, NI), ls1) ← get_cont_record ls
          let (ms, ls2) ← loopM (fun ls => do
              let ((items, values), ls1) ← get_list_record ls
              let LS := items.2.2.1
              .ok ((LS, LS, items.2.2.2.2.1, items.2.2.2.2.2, values), ls1))
            NI.toNat ls1
          .ok ((L, L1, LCT, NI,
                Val.D [("LS", VFl (ms.map (fun m => ⟨m.1, 0⟩))),
                       ("LB", VFl (ms.map (fun m => ⟨m.2.1, 0⟩))),
                       ("NT", VFl (ms.map (fun m => ⟨m.2.2.1, 0⟩))),
                       ("NE", VFl (ms.map (fun m => ⟨m.2.2.2.1, 0⟩))),
                       ("Data", .L (ms.map (fun m => VFl m.2.2.2.2)))]), ls2))
        0 NSS.toNat ls1
      let lct : PDict :=
        match subsubs.head? with
        | Option.some s => [("LCT", .I s.2.2.1)]
        | Option.none => []
      .ok (Val.D ([("MAT1", .I MAT1), ("MT1", .I MT1), ("NL", .I NL), ("NSS", .I NSS),
                  ("L", VFl (subsubs.map (fun s => ⟨s.1, 0⟩))),
                  ("L1", VFl (subsubs.map (fun s => ⟨s.2.1, 0⟩))),
                  ("NI", VFl (subsubs.map (fun s => ⟨s.2.2.2.1, 0⟩))),
                  ("subsubsections", .L (subsubs.map (fun s => s.2.2.2.2)))] ++ lct), ls2))
    NMT1.toNat ls1
  .ok (.D [("ZA", .I ZA), ("AWR", .F AWR), ("LTT", .I LTT), ("NMT1", .I NMT1),
           ("subsections", .L [])], ls2)

/-- `parse_mf40`: radionuclide production covariances; each subsection
wraps NL MF=33-style sub-subsections. -/
def parse_mf40 (ls : Lines) : Except String (Val × Lines) := do
  let ((ZA, AWR, LIS, _, NS, _), ls1) ← get_head_record ls
  let (subs, ls2) ← loopM (fun ls => do
      let ((QM, QI, IZAP, LFS, _, NL), ls1) ← get_cont_record ls
      let (ss, ls2) ← loopM parse_mf33_subsection NL.toNat ls1
      .ok (Val.D [("QM", .F QM), ("QI", .F QI), ("IZAP", .I IZAP), ("LFS", .I LFS),
                  ("NL", .I NL), ("subsubsections", .L ss)], ls2)) NS.toNat ls1
  .ok (.D [("ZA", .I ZA), ("AWR", .F AWR), ("LIS", .I LIS), ("NS", .I NS),
           ("subsections", .L subs)], ls2)

/-- `parse_mf14`: photon angular distributions. -/
def parse_mf14 (ls : Lines) : Except String (Val × Lines) := do
  let ((ZA, AWR, LI, LTT, NK, NI), ls1) ← get_head_record ls
  let base : PDict := [("ZA", .I ZA), ("AWR", .F AWR), ("LI", .I LI), ("NK", .I NK)]
  if LI = 1 then .ok (.D base, ls1)
  else do
    let (iso, ls2) ← loopM (fun ls => do
        let ((EG, ES, _, _, _, _), ls1) ← get_cont_record ls
        .ok (Val.D [("EG", .F EG), ("ES", .F ES)], ls1)) NI.toNat ls1
    let (aniso, ls3) ← loopM (fun ls => do
        let ((p, tab2), ls1) ← get_tab2_record ls
        let NE := p.2.2.2.2.2
        let sub0 : PDict :=
          [("EG", .F p.1), ("ES", .F p.2.1), ("NE", .I NE),
           ("E_int", .T2 tab2.1 tab2.2)]
        if LTT = 1 then do
          let (recs, ls2) ← loopM (fun ls => do
              let ((items, a_lk), ls1) ← get_list_record ls
              .ok ((items.2.1, items.2.2.2.2.1, a_lk), ls1)) NE.toNat ls1
          .ok (Val.D (sub0 ++ [("E", VFl (recs.map (fun r => r.1))),
                ("NL", VFl (recs.map (fun r => (⟨r.2.1, 0⟩ : Dec)))),
                ("a_lk", .L (recs.map (fun r => VFl r.2.2)))]), ls2)
        else if LTT = 2 then do
          let (recs, ls2) ← loopM (fun ls => do
              let ((p1, p_k), ls1) ← get_tab1_record ls
              .ok ((p1.2.1, p_k), ls1)) NE.toNat ls1
          .ok (Val.D (sub0 ++ [("E", VFl (recs.map Prod.fst)),
                ("p_k", .L (recs.map (Val.T1 ∘ Prod.snd)))]), ls2)
        else
          -- `subsec['E'] = np.empty(NE)` stays uninitialized in the source
          .ok (Val.D (sub0 ++ [("E", VFl (List.replicate NE.toNat Dec.zero))]), ls1))
      (NK - NI).toNat ls2
    .ok (.D (base ++ [("LTT", .I LTT), ("NI", .I NI),
             ("subsections", .L (iso ++ aniso))]), ls3)

/-! ### Material splitter and dispatch (`endf/material.py`) -/

/-- The MAT-finding loop of `Material.__init__`: skip lines while the MF
field (columns 70:72) reads zero; the MAT number comes from the first line
with a nonzero MF, and the stream is rewound to that line. -/
def matFindStart : Lines → Except String (ℤ × Lines)
  | [] => do
      -- readline at EOF returns '', and int('') raises
      let _ ← pyInt (pySlice "" 70 72)
      .error "unreachable"
  | line :: rest => do
      let mf ← pyInt (pySlice line 70 72)
      if mf = 0 then matFindStart rest
      else do
        let mat ← pyInt (pySlice line 66 70)
        .ok (mat, line :: rest)

/-- The section-finding scan: skip lines until one has MT > 0 or MAT = 0,
rewinding to that line. -/
def matFindSection : Lines → Except String ((ℤ × ℤ × ℤ) × Lines)
  | [] => do
      let _ ← pyInt (pySlice "" 66 70)
      .error "unreachable"
  | line :: rest => do
      let mat ← pyInt (pySlice line 66 70)
      let mf ← pyInt (pySlice line 70 72)
      let mt ← pyInt (pySlice line 72 75)
      if 0 < mt ∨ mat = 0 then .ok ((mat, mf, mt), line :: rest)
      else matFindSection rest

/-- Accumulate a section's lines until one whose columns 72:75 read
exactly `"  0"` (that terminator line is consumed and dropped).  At end of
input the source would loop forever on the empty string; that is modelled
as an error. -/
def matReadSection : Lines → Except String (List String × Lines)
  | [] => .error "unterminated section"
  | line :: rest =>
      if pySlice line 72 75 = "  0" then .ok ([], rest)
      else do
        let (acc, r) ← matReadSection rest
        .ok (line :: acc, r)

/-- Python dict assignment on a `(MF, MT)`-keyed ordered mapping. -/
def sectInsert (d : List ((ℤ × ℤ) × α)) (k : ℤ × ℤ) (v : α) : List ((ℤ × ℤ) × α) :=
  if d.any (fun p => p.1 = k) then d.map (fun p => if p.1 = k then (k, v) else p)
  else d ++ [(k, v)]

/-- The outer section loop of `Material.__init__`: collect `(MF, MT) →
section text` until a line with MAT = 0 (the terminator is consumed).
`fuel` bounds the recursion; every iteration consumes at least one line,
so `ls.length + 1` suffices. -/
def matSections (fuel : Nat) (ls : Lines) (acc : List ((ℤ × ℤ) × List String)) :
    Except String (List ((ℤ × ℤ) × List String)) :=
  match fuel with
  | 0 => .error "out of fuel"
  | fuel + 1 => do
      let ((mat, mf, mt), ls1) ← matFindSection ls
      let _ := mt
      if mat = 0 then .ok acc
      else do
        let (text, ls2) ← matReadSection ls1
        matSections fuel ls2 (sectInsert acc (mf, mt) text)

/-- The `(MF, MT)` dispatch chain of `Material.__init__`: `some` a parsed
section, or `none` for an unsupported pair (which the source warns about
and skips). -/
def sectionDispatch (mf mt : ℤ) (text : Lines) : Except String (Option Val) :=
  if mf = 1 ∧ mt = 451 then (parse_mf1_mt451 text).map (fun p => Option.some p.1)
  else if mf = 1 ∧ (mt = 452 ∨ mt = 456) then (parse_mf1_mt452 text).map (fun p => Option.some p.1)
  else if mf = 1 ∧ mt = 455 then (parse_mf1_mt455 text).map (fun p => Option.some p.1)
  else if mf = 1 ∧ mt = 458 then (parse_mf1_mt458 text).map (fun p => Option.some p.1)
  else if mf = 1 ∧ mt = 460 then (parse_mf1_mt460 text).map (fun p => Option.some p.1)
  else if mf = 2 ∧ mt = 151 then (parse_mf2 text).map (fun p => Option.some p.1)
  else if mf = 3 then (parse_mf3 text).map (fun p => Option.some p.1)
  else if mf = 4 then (parse_mf4 text).map (fun p => Option.some p.1)
  else if mf = 5 then (parse_mf5 text).map (fun p => Option.some p.1)
  else if mf = 6 then (parse_mf6 text).map (fun p => Option.some p.1)
  else if mf = 7 ∧ mt = 2 then (parse_mf7_mt2 text).map (fun p => Option.some p.1)
  else if mf = 7 ∧ mt = 4 then (parse_mf7_mt4 text).map (fun p => Option.some p.1)
  else if mf = 7 ∧ mt = 451 then (parse_mf7_mt451 text).map (fun p => Option.some p.1)
  else if mf = 8 ∧ (mt = 454 ∨ mt = 459) then (parse_mf8_mt454 text).map (fun p => Option.some p.1)
  else if mf = 8 ∧ mt = 457 then (parse_mf8_mt457 text).map (fun p => Option.some p.1)
  else if mf = 8 then (parse_mf8 text).map (fun p => Option.some p.1)
  else if mf = 9 ∨ mf = 10 then (parse_mf9_mf10 mf text).map (fun p => Option.some p.1)
  else if mf = 12 then (parse_mf12 text).map (fun p => Option.some p.1)
  else if mf = 13 then (parse_mf13 text).map (fun p => Option.some p.1)
  else if mf = 14 then (parse_mf14 text).map (fun p => Option.some p.1)
  else if mf = 15 then (parse_mf15 text).map (fun p => Option.some p.1)
  else if mf = 23 then (parse_mf23 text).map (fun p => Option.some p.1)
  else if mf = 26 then (parse_mf26 text).map (fun p => Option.some p.1)
  else if mf = 27 then (parse_mf27 text).map (fun p => Option.some p.1)
  else if mf = 28 then (parse_mf28 text).map (fun p => Option.some p.1)
  else if mf = 33 then (parse_mf33 text).map (fun p => Option.some p.1)
  else if mf = 34 then (parse_mf34 mt text).map (fun p => Option.some p.1)
  else if mf = 40 then (parse_mf40 text).map (fun p => Option.some p.1)
  else .ok Option.none

/-- The warning text `f"{MF=}, {MT=} ignored"`. -/
def warnText (mf mt : ℤ) : String :=
  "MF=" ++ toString mf ++ ", MT=" ++ toString mt ++ " ignored"

/-- The dispatch loop of `Material.__init__` over the collected section
texts, in order: parsed sections land in `section_data`, unsupported
`(MF, MT)` pairs produce a warning and are skipped. -/
def matDispatchAll : List ((ℤ × ℤ) × List String) →
    Except String (List ((ℤ × ℤ) × Val) × List String)
  | [] => .ok ([], [])
  | (k, text) :: rest => do
      let r ← sectionDispatch k.1 k.2 text
      let (dat, warns) ← matDispatchAll rest
      match r with
      | Option.some v => .ok ((k, v) :: dat, warns)
      | Option.none => .ok (dat, warnText k.1 k.2 :: warns)

/-- The state of a constructed `Material`. -/
structure MaterialState where
  MAT : ℤ
  sectText : List ((ℤ × ℤ) × List String)
  sectData : List ((ℤ × ℤ) × Val)
  warnings : List String
deriving Repr

/-- `Material.__init__` from a stream positioned at its start: skip the
TPID line, find the MAT number, split the material into sections keyed by
`(MF, MT)`, then parse each section through the dispatch chain. -/
def materialInit (ls : Lines) : Except String MaterialState := do
  let ls0 := (readline ls).2
  let (mat, ls1) ← matFindStart ls0
  let secs ← matSections (ls1.length + 1) ls1 []
  let (dat, warns) ← matDispatchAll secs
  .ok ⟨mat, secs, dat, warns⟩

/-- `_DictWrapper.__getitem__`: looks the key up only to decide whether to
raise the prettified `KeyError`; the looked-up value is discarded and the
method returns Python `None` (there is no `return` statement). -/
def dictWrapper_getitem (d : List ((ℤ × ℤ) × α)) (k : ℤ × ℤ) :
    Except String (Option α) :=
  match d.find? (fun p => p.1 = k) with
  | Option.some _ => .ok Option.none
  | Option.none =>
      .error ("The requested data: MF=" ++ toString k.1 ++ ", MT=" ++ toString k.2 ++
              " are not present in this file.")

/-- `Material.__getitem__`: plain dictionary lookup on the parsed data. -/
def material_getitem (d : List ((ℤ × ℤ) × α)) (k : ℤ × ℤ) : Except String α :=
  match d.find? (fun p => p.1 = k) with
  | Option.some p => .ok p.2
  | Option.none => .error "KeyError"

/-! ### Tabulated1D evaluation and integration (`endf/function.py`)

The interpolation laws 3-5 involve `log`/`exp`, so evaluation is modelled
over `ℝ` (the decoded decimal data is injected via `Dec.toR`). -/

open Classical in
/-- `np.searchsorted(x, q, side='right')` on a sorted list: the number of
elements `≤ q`. -/
noncomputable def countLe (l : List Dec) (q : ℝ) : ℕ :=
  l.foldl (fun n xi => if xi.toR ≤ q then n + 1 else n) 0

/-- The per-law point formula shared by the scalar and the vectorized
evaluation paths of `Tabulated1D.__call__` (1 histogram, 2 lin-lin,
3 lin-log, 4 log-lin, 5 log-log); for any other law the scalar source
falls through and returns Python `None`, modelled as 0 (the vectorized
path never applies the formula to an unknown law). -/
noncomputable def lawFormula (p : ℤ) (xi xi1 yi yi1 q : ℝ) : ℝ :=
  if p = 1 then yi
  else if p = 2 then yi + (q - xi) / (xi1 - xi) * (yi1 - yi)
  else if p = 3 then yi + Real.log (q / xi) / Real.log (xi1 / xi) * (yi1 - yi)
  else if p = 4 then yi * Real.exp ((q - xi) / (xi1 - xi) * Real.log (yi1 / yi))
  else if p = 5 then yi * Real.exp (Real.log (q / xi) / Real.log (xi1 / xi) * Real.log (yi1 / yi))
  else 0

/-- The region-selection loop of `_interpolate_scalar`: the first
`(breakpoint, law)` pair with `idx < breakpoint - 1`, or the last pair if
none matches. -/
def findLaw : List (ℤ × ℤ) → ℤ → ℤ
  | [], _ => 0
  | [(_, p)], _ => p
  | (b, p) :: rest, idx => if idx < b - 1 then p else findLaw rest idx

open Classical in
/-- `Tabulated1D._interpolate_scalar`: clamp to the boundary values
outside `[x[0], x[-1]]`, otherwise binary-search the bin and apply the
region's law. -/
noncomputable def interpScalar (T : Tabulated1D) (q : ℝ) : ℝ :=
  if q ≤ (T.x.headI).toR then (T.y.headI).toR
  else if (T.x.getLastI).toR ≤ q then (T.y.getLastI).toR
  else
    let idx : ℕ := countLe T.x q - 1
    let p := findLaw (T.breakpoints.zip T.interpolation) (idx : ℤ)
    lawFormula p (at0 T.x idx).toR (at0 T.x (idx + 1)).toR
      (at0 T.y idx).toR (at0 T.y (idx + 1)).toR q

open Classical in
/-- `np.isclose(a, b, atol=1e-14)` with numpy's default `rtol=1e-5`. -/
def isclose (a b : ℝ) : Prop := |a - b| ≤ 1 / 10 ^ 14 + 1 / 10 ^ 5 * |b|

open Classical in
/-- The vectorized path of `Tabulated1D.__call__` at one query point: the
output starts at 0, each interpolation region writes the points whose bin
index it contains (only for laws 1-5 — an unknown law leaves the value
alone), and finally points within `np.isclose` tolerance of `x[0]` and
then of `x[-1]` are snapped to `y[0]` and `y[-1]`. -/
noncomputable def interpVec (T : Tabulated1D) (q : ℝ) : ℝ :=
  let idx : ℤ := (countLe T.x q : ℤ) - 1
  let base := (List.range T.breakpoints.length).foldl (fun acc k =>
      let iBegin : ℤ := if 0 < k then T.breakpoints.getD (k - 1) 0 - 1 else 0
      let iEnd : ℤ := T.breakpoints.getD k 0 - 1
      let p := T.interpolation.getD k 0
      if iBegin ≤ idx ∧ idx < iEnd ∧ 1 ≤ p ∧ p ≤ 5 then
        lawFormula p (at0 T.x idx.toNat).toR (at0 T.x (idx.toNat + 1)).toR
          (at0 T.y idx.toNat).toR (at0 T.y (idx.toNat + 1)).toR q
      else acc) 0
  let s0 := if isclose q (T.x.headI).toR then (T.y.headI).toR else base
  if isclose q (T.x.getLastI).toR then (T.y.getLastI).toR else s0

/-- The per-interval partial integral of `Tabulated1D.integral`, per law,
exactly as written in the source (including the lin-log branch, law 3). -/
noncomputable def intervalVal (p : ℤ) (x0 x1 y0 y1 : ℝ) : ℝ :=
  if p = 1 then y0 * (x1 - x0)
  else if p = 2 then
    let m := (y1 - y0) / (x1 - x0)
    (y0 - m * x0) * (x1 - x0) + m * (x1 ^ 2 - x0 ^ 2) / 2
  else if p = 3 then
    let logx := Real.log (x1 / x0)
    let m := (y1 - y0) / logx
    y0 + m * (x1 * (logx - 1) + x0)
  else if p = 4 then
    let m := Real.log (y1 / y0) / (x1 - x0)
    y0 / m * (Real.exp (m * (x1 - x0)) - 1)
  else if p = 5 then
    let m := Real.log (y1 / y0) / Real.log (x1 / x0)
    y0 / ((m + 1) * x0 ^ m) * (x1 ^ (m + 1) - x0 ^ (m + 1))
  else 0

/-- Write `vals` into `arr` starting at index `start`
(the numpy slice assignment `arr[start:start+len(vals)] = vals`). -/
def writeSlice (arr : List ℝ) (start : ℕ) (vals : List ℝ) : List ℝ :=
  arr.mapIdx (fun i a =>
    if start ≤ i ∧ i < start + vals.length then vals.getD (i - start) a else a)

/-- The per-interval values of `Tabulated1D.integral` before accumulation:
a zero array of length `len(x) - 1` into which each interpolation region
writes its slice of interval integrals (only the five known laws assign;
`i_low` advances to each region's `i_high`). -/
noncomputable def integralPartials (T : Tabulated1D) : List ℝ :=
  let init := List.replicate (T.x.length - 1) (0 : ℝ)
  ((List.range T.breakpoints.length).foldl (fun acc k =>
      let arr := acc.1
      let iLow := acc.2
      let iHigh := (T.breakpoints.getD k 0 - 1).toNat
      let p := T.interpolation.getD k 0
      let vals := (List.range (iHigh - iLow)).map (fun j =>
        intervalVal p (at0 T.x (iLow + j)).toR (at0 T.x (iLow + j + 1)).toR
          (at0 T.y (iLow + j)).toR (at0 T.y (iLow + j + 1)).toR)
      let arr2 := if 1 ≤ p ∧ p ≤ 5 then writeSlice arr iLow vals else arr
      (arr2, iHigh)) (init, 0)).1

/-- `Tabulated1D.integral`: `np.concatenate(([0.], np.cumsum(partials)))`,
the running partial integrals from `x[0]` to each tabulated point. -/
noncomputable def tabIntegral (T : Tabulated1D) : List ℝ :=
  (integralPartials T).scanl (fun a b => a + b) 0

/-- The invariant the claims state for `Tabulated1D` (spec section 3):
strictly increasing breakpoints, final breakpoint equal to the number of
points, every interpolation law in {1, 2, 3, 4, 5}. -/
def tabInvariant (T : Tabulated1D) : Prop :=
  T.breakpoints.Chain' (· < ·) ∧
  T.breakpoints.getLast? = Option.some (T.x.length : ℤ) ∧
  ∀ p ∈ T.interpolation, p = 1 ∨ p = 2 ∨ p = 3 ∨ p = 4 ∨ p = 5

instance (T : Tabulated1D) : Decidable (tabInvariant T) := by
  unfold tabInvariant; infer_instance

/-- The same invariant on raw breakpoint/interpolation arrays for a table
of `n` points. -/
def arraysInvariant (b p : List ℤ) (n : ℕ) : Prop :=
  b.Chain' (· < ·) ∧ b.getLast? = Option.some (n : ℤ) ∧
  ∀ q ∈ p, q = 1 ∨ q = 2 ∨ q = 3 ∨ q = 4 ∨ q = 5

/-! ### Concrete inputs used by the theorems -/

/-- An all-blank 11-column field. -/
def bl : String := "           "

/-- INTG record stream: NDIGIT=2, NPAR=3, NLINES=1; the line addresses row
3, column 1 (1-based) and packs the two entries 25 and -25. -/
def c3stream : Lines :=
  [bl ++ bl ++ "          2" ++ "          3" ++ "          1" ++ bl,
   "    3    1  25-25                                                 "]

/-- TAB1 stream with one region whose interpolation law is 7. -/
def c7stream : Lines :=
  [bl ++ bl ++ bl ++ bl ++ "          1" ++ "          2",
   "          2" ++ "          7" ++ bl ++ bl ++ bl ++ bl,
   "          1" ++ "          1" ++ "          2" ++ "          2" ++ bl ++ bl]

/-- The invariant-violating table `c7stream` decodes to. -/
def c7tab : Tabulated1D := ⟨[⟨1, 0⟩, ⟨2, 0⟩], [⟨1, 0⟩, ⟨2, 0⟩], [2], [7]⟩

/-- MF=2 section stream: NIS=1 isotope, NER=1 range with LRU=1, LRF=4
(Adler-Adler). -/
def c8stream : Lines :=
  [bl ++ bl ++ bl ++ bl ++ "          1" ++ bl,
   bl ++ bl ++ bl ++ bl ++ "          1" ++ bl,
   bl ++ bl ++ "          1" ++ "          4" ++ bl ++ bl]

/-- HEAD line of the MF=3, MT=1 section of the two-section material. -/
def c9line1 : String := "        100" ++ "          1" ++ bl ++ bl ++ bl ++ bl ++ " 125 3  1"

/-- TAB1 header line of that section. -/
def c9line2 : String := bl ++ bl ++ bl ++ bl ++ "          1" ++ "          2" ++ " 125 3  1"

/-- Interpolation-region line of that section. -/
def c9line3 : String := "          2" ++ "          2" ++ bl ++ bl ++ bl ++ bl ++ " 125 3  1"

/-- (x, y) pair line of that section: (0, 4) and (10, 5). -/
def c9line4 : String :=
  "          0" ++ "          4" ++ "         10" ++ "          5" ++ bl ++ bl ++ " 125 3  1"

/-- The single line of the unsupported MF=30, MT=1 section. -/
def c9line6 : String :=
  "UNKNOWN SECTION CONTENT" ++ "                                           " ++ " 12530  1"

/-- A complete material: TPID line, an MF=3/MT=1 section, an unsupported
MF=30/MT=1 section, their SEND lines, and the MEND line. -/
def c9stream : Lines :=
  ["TPID", c9line1, c9line2, c9line3, c9line4,
   bl ++ bl ++ bl ++ bl ++ bl ++ bl ++ " 125 3  0",
   c9line6,
   bl ++ bl ++ bl ++ bl ++ bl ++ bl ++ " 12530  0",
   bl ++ bl ++ bl ++ bl ++ bl ++ bl ++ "   0 0  0"]

/-- The cross section tabulated in the MF=3 section of `c9stream`. -/
def c9sigma : Tabulated1D := ⟨[⟨0, 0⟩, ⟨10, 0⟩], [⟨4, 0⟩, ⟨5, 0⟩], [2], [2]⟩

/-- What `parse_mf3` yields on that section. -/
def c9mf3val : Val :=
  .D [("ZA", .I 100), ("AWR", .F ⟨1, 0⟩), ("QM", .F ⟨0, 0⟩), ("QI", .F ⟨0, 0⟩),
      ("LR", .I 0), ("sigma", .T1 c9sigma)]

/-- The full expected state of the material built from `c9stream`. -/
def c9expected : MaterialState :=
  ⟨125,
   [((3, 1), [c9line1, c9line2, c9line3, c9line4]), ((30, 1), [c9line6])],
   [((3, 1), c9mf3val)],
   [warnText 30 1]⟩

/-- MF=33 subsection stream: header with NC=1, NI=0, then one NC record
with LTY=0 (a CONT line and a LIST with E1=1, E2=2, NPL=2, NCI=1). -/
def c10stream : Lines :=
  [bl ++ bl ++ bl ++ bl ++ "          1" ++ bl,
   bl ++ bl ++ bl ++ bl ++ bl ++ bl,
   "          1" ++ "          2" ++ bl ++ bl ++ "          2" ++ "          1",
   "          7" ++ "          3" ++ bl ++ bl ++ bl ++ bl]

/-- The single NC record `c10stream` encodes. -/
def c10sub : Val :=
  .D [("LTY", .I 0), ("E1", .F ⟨1, 0⟩), ("E2", .F ⟨2, 0⟩), ("NCI", .I 1),
      ("CI", .L [.F ⟨7, 0⟩]), ("XMTI", .L [.F ⟨3, 0⟩])]

/-- The two-point linear table `Tabulated1D([0, 10], [4, 5])`. -/
def tab45 : Tabulated1D := tab1dInit [⟨0, 0⟩, ⟨10, 0⟩] [⟨4, 0⟩, ⟨5, 0⟩] Option.none Option.none

/-- The two-point linear table `Tabulated1D([0, 1], [0, 1])`. -/
def tab01 : Tabulated1D := tab1dInit [⟨0, 0⟩, ⟨1, 0⟩] [⟨0, 0⟩, ⟨1, 0⟩] Option.none Option.none

/-- A one-region lin-log (law 3) table with constant y: x = [1, 3],
y = [5, 5]. -/
def tabC4 : Tabulated1D := ⟨[⟨1, 0⟩, ⟨3, 0⟩], [⟨5, 0⟩, ⟨5, 0⟩], [2], [3]⟩

/-! ### The claims -/

/-- C1: the ENDF float decoder (`float_endf`, modelled from the spec since
`_records.cpp` is not in the tree) maps each of the spec's literal cases to
the value obtained by inserting the implicit exponent marker, and an
all-blank field to 0.0. -/
theorem C1_float_endf_literal_cases :
    (float_endf "+3.2146").map Dec.toQ = .ok (3.2146 : ℚ) ∧
    (float_endf "-2.225002+6").map Dec.toQ = .ok (-2225002.0 : ℚ) ∧
    (float_endf ".12345").map Dec.toQ = .ok (0.12345 : ℚ) ∧
    (float_endf "6.022+23").map Dec.toQ = .ok (6.022e23 : ℚ) ∧
    (float_endf " +1.01+ 2").map Dec.toQ = .ok (101.0 : ℚ) ∧
    (float_endf "-7 .8 -1").map Dec.toQ = .ok (-0.78 : ℚ) ∧
    (float_endf "1+2").map Dec.toQ = .ok (100.0 : ℚ) ∧
    (float_endf "        ").map Dec.toQ = .ok (0.0 : ℚ) ∧
    (float_endf "9.876540000000000").map Dec.toQ = .ok (9.87654 : ℚ) := by
  refine ⟨?_, ?_, ?_, ?_, ?_, ?_, ?_, ?_, ?_⟩
  · have h : float_endf "+3.2146" = .ok ⟨32146, 4⟩ := rfl
    rw [h]; norm_num [Except.map, Dec.toQ]
  · have h : float_endf "-2.225002+6" = .ok ⟨-2225002000000, 6⟩ := rfl
    rw [h]; norm_num [Except.map, Dec.toQ]
  · have h : float_endf ".12345" = .ok ⟨12345, 5⟩ := rfl
    rw [h]; norm_num [Except.map, Dec.toQ]
  · have h : float_endf "6.022+23" = .ok ⟨602200000000000000000000000, 3⟩ := rfl
    rw [h]; norm_num [Except.map, Dec.toQ]
  · have h : float_endf " +1.01+ 2" = .ok ⟨10100, 2⟩ := rfl
    rw [h]; norm_num [Except.map, Dec.toQ]
  · have h : float_endf "-7 .8 -1" = .ok ⟨-78, 2⟩ := rfl
    rw [h]; norm_num [Except.map, Dec.toQ]
  · have h : float_endf "1+2" = .ok ⟨100, 0⟩ := rfl
    rw [h]; norm_num [Except.map, Dec.toQ]
  · have h : float_endf "        " = .ok ⟨0, 0⟩ := rfl
    rw [h]; norm_num [Except.map, Dec.toQ]
  · have h : float_endf "9.876540000000000" = .ok ⟨9876540000000000, 15⟩ := rfl
    rw [h]; norm_num [Except.map, Dec.toQ]

/-- C2: on the material parsed from `c9stream`, indexing the mapping the
`section_data` property wraps returns Python `None` (`_DictWrapper.
__getitem__` has no `return` statement), not the parsed section that
`Material.__getitem__` returns; the `section_text` wrapper loses the raw
text the same way. -/
theorem C2_dictwrapper_returns_none :
    (materialInit c9stream).map (fun st => dictWrapper_getitem st.sectData (3, 1)) =
      .ok (.ok Option.none) ∧
    (materialInit c9stream).map (fun st => material_getitem st.sectData (3, 1)) =
      .ok (.ok c9mf3val) ∧
    (materialInit c9stream).map (fun st => dictWrapper_getitem st.sectText (3, 1)) =
      .ok (.ok Option.none) ∧
    (Option.none : Option Val) ≠ Option.some c9mf3val :=
  ⟨rfl, rfl, rfl, by simp⟩

/-- C3: on `c3stream`, `get_intg_record` stores both packed entries of the
line into column jj (the second overwriting the first), leaving position
(ii, jj+1) untouched, while the reader the claim describes
(`read_intg_claim`) stores them at the successive columns; the two
symmetrized matrices differ in value at (2, 0) and (2, 1). -/
theorem C3_intg_column_bug :
    get_intg_record c3stream =
      .ok ([[⟨1, 0⟩, ⟨0, 0⟩, ⟨-255, 3⟩],
            [⟨0, 0⟩, ⟨1, 0⟩, ⟨0, 0⟩],
            [⟨-255, 3⟩, ⟨0, 0⟩, ⟨1, 0⟩]], []) ∧
    read_intg_claim c3stream =
      .ok ([[⟨1, 0⟩, ⟨0, 0⟩, ⟨255, 3⟩],
            [⟨0, 0⟩, ⟨1, 0⟩, ⟨-255, 3⟩],
            [⟨255, 3⟩, ⟨-255, 3⟩, ⟨1, 0⟩]], []) ∧
    Dec.toQ ⟨-255, 3⟩ ≠ Dec.toQ ⟨255, 3⟩ ∧
    Dec.toQ ⟨0, 0⟩ ≠ Dec.toQ ⟨-255, 3⟩ :=
  ⟨rfl, rfl, by norm_num [Dec.toQ], by norm_num [Dec.toQ]⟩

/-- C4: on the lin-log (law 3) table `tabC4` with constant y = 5 over
[1, 3], the tabulated function is identically 5, so its integral over the
domain is 10; `integral()` returns 5 as the final entry (the source's law-3
branch computes `y0 + m*(x1*(logx - 1) + x0)`, dropping the factor
`(x1 - x0)` on `y0`). -/
theorem C4_integral_linlog_bug :
    tabIntegral tabC4 = [0, 5] ∧
    (∀ q : ℝ, interpScalar tabC4 q = 5) ∧
    (∫ x in (1:ℝ)..3, interpScalar tabC4 x = 10) ∧
    (5 : ℝ) ≠ 10 := by
  have hconst : ∀ q : ℝ, interpScalar tabC4 q = 5 := by
    intro q
    simp only [interpScalar, tabC4, List.headI, List.getLastI, Dec.toR]
    norm_num
    by_cases h1 : q ≤ 1
    · simp [h1]
    · by_cases h2 : (3 : ℝ) ≤ q
      · simp [h1, h2]
      · have hq1 : (1 : ℝ) ≤ q := le_of_lt (lt_of_not_le h1)
        simp [h1, h2, countLe, List.foldl, findLaw, lawFormula, at0, Dec.toR, hq1]
  refine ⟨?_, hconst, ?_, by norm_num⟩
  · norm_num [tabIntegral, integralPartials, tabC4, intervalVal, writeSlice, at0, Dec.toR,
      List.range, List.range.loop, List.foldl, List.scanl, List.mapIdx, List.replicate]
  · have h5 : (∫ x in (1:ℝ)..3, interpScalar tabC4 x) = ∫ _x in (1:ℝ)..3, (5:ℝ) :=
      intervalIntegral.integral_congr (fun x _ => hconst x)
    rw [h5]
    simp
    norm_num

/-- C5: the two-point linear-linear table `Tabulated1D([0, 10], [4, 5])`
(default single region) evaluates to 4, 4.25, 4.5, 4.75, 5 at 0, 2.5, 5,
7.5, 10 on the scalar path and on the vectorized path. -/
theorem C5_two_point_linear_table :
    interpScalar tab45 0 = 4 ∧ interpScalar tab45 2.5 = 4.25 ∧
    interpScalar tab45 5 = 4.5 ∧ interpScalar tab45 7.5 = 4.75 ∧
    interpScalar tab45 10 = 5 ∧
    interpVec tab45 0 = 4 ∧ interpVec tab45 2.5 = 4.25 ∧
    interpVec tab45 5 = 4.5 ∧ interpVec tab45 7.5 = 4.75 ∧
    interpVec tab45 10 = 5 := by
  refine ⟨?_, ?_, ?_, ?_, ?_, ?_, ?_, ?_, ?_, ?_⟩ <;>
    norm_num [interpScalar, interpVec, tab45, tab1dInit, Dec.toR, countLe, findLaw,
      lawFormula, at0, List.headI, List.getLastI, List.foldl, List.range, List.range.loop,
      isclose, abs_le]

/-- C6 counterexample: on `Tabulated1D([0, 1], [0, 1])` the query 1e-15 is
within absolute tolerance 1e-14 of x[0] = 0, but the scalar call path
returns the interpolated value 1e-15, not y[0] = 0. -/
theorem C6_scalar_no_snap_counterexample :
    |(1 / 10 ^ 15 : ℝ) - (tab01.x.headI).toR| ≤ 1 / 10 ^ 14 ∧
    interpScalar tab01 (1 / 10 ^ 15) = 1 / 10 ^ 15 ∧
    (1 / 10 ^ 15 : ℝ) ≠ (tab01.y.headI).toR := by
  refine ⟨by norm_num [tab01, tab1dInit, Dec.toR, List.headI, abs_le], ?_,
    by norm_num [tab01, tab1dInit, Dec.toR, List.headI]⟩
  norm_num [interpScalar, tab01, tab1dInit, Dec.toR, countLe, findLaw, lawFormula, at0,
    List.headI, List.getLastI, List.foldl]

/-- C6 amended: the scalar path returns y[0]/y[-1] exactly for queries at
or beyond the boundaries (so in particular at exactly x[0] and x[-1]); the
within-tolerance snap applies on the vectorized path only, where a query
`np.isclose` to x[-1] returns y[-1], and one close to x[0] but not to
x[-1] returns y[0]. -/
theorem C6_boundary_snapping_amended :
    (∀ (T : Tabulated1D) (q : ℝ), q ≤ (T.x.headI).toR → interpScalar T q = (T.y.headI).toR) ∧
    (∀ (T : Tabulated1D) (q : ℝ), ¬(q ≤ (T.x.headI).toR) → (T.x.getLastI).toR ≤ q →
      interpScalar T q = (T.y.getLastI).toR) ∧
    (∀ (T : Tabulated1D) (q : ℝ), isclose q (T.x.getLastI).toR →
      interpVec T q = (T.y.getLastI).toR) ∧
    (∀ (T : Tabulated1D) (q : ℝ), isclose q (T.x.headI).toR → ¬ isclose q (T.x.getLastI).toR →
      interpVec T q = (T.y.headI).toR) := by
  refine ⟨?_, ?_, ?_, ?_⟩
  · intro T q h; rw [interpScalar, if_pos h]
  · intro T q h1 h2; rw [interpScalar, if_neg h1, if_pos h2]
  · intro T q h; rw [interpVec]; simp only [if_pos h]
  · intro T q h1 h2; rw [interpVec]; simp only [if_pos h1, if_neg h2]

/-- C6 witness: the amended theorem applied to the concrete table
`Tabulated1D([0, 10], [4, 5])` at the boundary query 10. -/
theorem C6_boundary_snapping_witness :
    isclose 10 (tab45.x.getLastI).toR ∧ interpVec tab45 10 = (tab45.y.getLastI).toR :=
  ⟨by norm_num [isclose, tab45, tab1dInit, Dec.toR, List.getLastI, abs_le],
   C6_boundary_snapping_amended.2.2.1 tab45 10
     (by norm_num [isclose, tab45, tab1dInit, Dec.toR, List.getLastI, abs_le])⟩

/-- C7 counterexample: `get_tab1_record` on `c7stream` succeeds and hands
the decoded arrays to the constructor unvalidated, producing a
`Tabulated1D` whose interpolation law is 7 ∉ {1..5}. -/
theorem C7_invariant_counterexample :
    get_tab1_record c7stream =
      .ok (((⟨0, 0⟩, ⟨0, 0⟩, 0, 0), c7tab), []) ∧
    ¬ tabInvariant c7tab := by
  refine ⟨rfl, ?_⟩
  simp [tabInvariant, c7tab]

/-- C7 amended: the default constructor path (no breakpoints or laws
given) always establishes the invariant; the explicit path — used verbatim
by `get_tab1_record` — stores the supplied arrays without validation, so
the constructed table satisfies the invariant exactly when the supplied
arrays do. -/
theorem C7_invariant_amended :
    (∀ x y, tabInvariant (tab1dInit x y Option.none Option.none)) ∧
    (∀ x y b p, tabInvariant (tab1dInit x y (Option.some b) (Option.some p)) ↔
      arraysInvariant b p x.length) := by
  constructor
  · intro x y
    refine ⟨by simp [tab1dInit], by simp [tab1dInit], ?_⟩
    intro p hp
    simp [tab1dInit] at hp
    simp [hp]
  · intro x y b p
    exact Iff.rfl

/-- C8: for a resolved resonance range (LRU ∈ {0, 1}) with LRF = 4, the
range body of `parse_mf2` dispatches to Adler-Adler and fails with
`NotImplementedError` on every stream, and so does `parse_mf2` on a
concrete section containing such a range. -/
theorem C8_adler_adler_fatal :
    (∀ (LFW NRO : ℤ) (ls : Lines), mf2RangeBody LFW 0 4 NRO ls = .error "NotImplementedError") ∧
    (∀ (LFW NRO : ℤ) (ls : Lines), mf2RangeBody LFW 1 4 NRO ls = .error "NotImplementedError") ∧
    parse_mf2 c8stream = .error "NotImplementedError" :=
  ⟨fun _ _ _ => rfl, fun _ _ _ => rfl, rfl⟩

/-- C9: constructing a material from `c9stream` (one MF=3/MT=1 section and
one unsupported MF=30/MT=1 section) succeeds; the unknown section's raw
text is retained under (30, 1) in the text mapping, it gets no entry in the
data mapping, a warning is recorded for it, and the MF=3 section is parsed
into the data mapping. -/
theorem C9_unknown_section_tolerated :
    materialInit c9stream = .ok c9expected ∧
    c9expected.sectText.map Prod.fst = [(3, 1), (30, 1)] ∧
    c9expected.sectData.map Prod.fst = [(3, 1)] ∧
    c9expected.warnings = ["MF=30, MT=1 ignored"] :=
  ⟨rfl, rfl, rfl, rfl⟩

/-- C10: on a subsection declaring NC = 1 whose single record has LTY = 0,
`parse_mf33_subsection` appends the record twice (once inside the LTY=0
branch and once at the shared append), so `nc_subsections` has length 2,
not NC. -/
theorem C10_nc_subsections_double_append :
    parse_mf33_subsection c10stream =
      .ok (.D [("XMF1", .F ⟨0, 0⟩), ("XLFS1", .F ⟨0, 0⟩), ("MAT1", .I 0),
               ("MT1", .I 0), ("NC", .I 1), ("NI", .I 0),
               ("nc_subsections", .L [c10sub, c10sub]),
               ("ni_subsections", .L [])], []) ∧
    [c10sub, c10sub].length = 2 ∧ (2 : ℕ) ≠ 1 :=
  ⟨rfl, rfl, by norm_num⟩

end ENDF
